import Mathlib

/-!
# Verification of the Alquad smart file-system agent

A shallow embedding, in Lean 4, of the navigation/search core of the
Alquad-Hel-Soft repository (`src/agent/agent.py`, `src/utils/file_system.py`,
`src/utils/cache.py`, `src/utils/google_search.py`,
`src/utils/gemini_client.py`, `src/config/settings.py`), together with
theorems settling the claims of the specification.

Conventions used throughout:
* Python strings are Lean `String`s; most helpers work on `List Char`
  (`String.data`) so that everything evaluates by `decide`/`rfl`.
* The Windows file system is a pure value (`FileSys`): a set of directory
  paths, a set of file paths (both stored in lower-cased `ntpath.normpath`
  normal form, the comparison Windows itself applies), and the ordered
  `os.listdir` children of each directory.
* Side effects (directory enumeration, oracle calls, opening paths,
  opening the browser) are recorded as an explicit event trace; mutable
  state (the process-wide listing cache and the per-call visited set) is
  threaded through a small state monad `M`.
* The decision oracle (`llm.generate_content`) is an arbitrary function
  `String → Option String` from prompt to answer, `none` standing for the
  client returning `None`.
* `time.time()` is an explicit `Nat` parameter (`now`); within a single
  resolve call it is held fixed (the cache TTL is 1800 s, far longer than
  one call).
-/

set_option maxRecDepth 20000

/-! ## Python string primitives -/

/-- Prefix test on character lists. -/
def isPrefixL : List Char → List Char → Bool
  | [], _ => true
  | _ :: _, [] => false
  | a :: as, b :: bs => a == b && isPrefixL as bs

/-- Python `needle in hay` (substring containment); `"" in s` is `True`. -/
def subL : List Char → List Char → Bool
  | n, [] => n.isEmpty
  | n, c :: t => isPrefixL n (c :: t) || subL n t

/-- Python `needle in hay` on strings. -/
def pySub (needle hay : String) : Bool := subL needle.data hay.data

/-- Python `str.lower` (ASCII case folding, which is all the code relies on). -/
def pyLower (s : String) : String := ⟨s.data.map Char.toLower⟩

/-- Python whitespace class `\s` / `str.strip` default set. -/
def isSpaceC (c : Char) : Bool :=
  c == ' ' || c == '\t' || c == '\n' || c == '\x0d' || c == '\x0b' || c == '\x0c'

def dropWhileL (p : Char → Bool) : List Char → List Char
  | [] => []
  | c :: t => if p c then dropWhileL p t else c :: t

/-- Python `str.strip()` (no arguments): trim whitespace at both ends. -/
def pyStripL (s : List Char) : List Char :=
  (dropWhileL isSpaceC ((dropWhileL isSpaceC s.reverse).reverse))

def pyStrip (s : String) : String := ⟨pyStripL s.data⟩

/-- Python `str.rstrip(chars)`: trim any of the given characters at the end. -/
def pyRstripSet (cs : List Char) (s : String) : String :=
  ⟨(dropWhileL (fun c => cs.contains c) s.data.reverse).reverse⟩

/-- Python `str.split()` (no arguments): split on whitespace runs, no empties. -/
def splitWsL : List Char → List (List Char)
  | [] => []
  | c :: t =>
    if isSpaceC c then splitWsL t
    else
      match splitWsL t with
      | [] => [[c]]
      | w :: ws =>
        match t with
        | [] => [[c]]
        | d :: _ => if isSpaceC d then [c] :: w :: ws else (c :: w) :: ws

/-- Python `str.split()` on strings. -/
def pySplitWs (s : String) : List String := (splitWsL s.data).map (⟨·⟩)

/-- Python `str.split(sep)` for a one-character separator: keeps empty pieces,
and `"".split(sep) == [""]`. -/
def splitOnCharL (sep : Char) : List Char → List (List Char)
  | [] => [[]]
  | c :: t =>
    if c == sep then [] :: splitOnCharL sep t
    else
      match splitOnCharL sep t with
      | [] => [[c]]
      | w :: ws => (c :: w) :: ws

def pySplitOn (sep : Char) (s : String) : List String :=
  (splitOnCharL sep s.data).map (⟨·⟩)

def startsWithS (s pre : String) : Bool := isPrefixL pre.data s.data

def endsWithS (s suf : String) : Bool := isPrefixL suf.data.reverse s.data.reverse

/-- Python `str.replace(pat, rep)` for a non-empty `pat`: left-to-right,
non-overlapping. The fuel argument (instantiated with the text length)
only serves termination; it never runs out because `pat` is non-empty. -/
def replaceAllGo (pat rep : List Char) : Nat → List Char → List Char
  | 0, h => h
  | _ + 1, [] => []
  | fuel + 1, c :: t =>
    if isPrefixL pat (c :: t) then
      rep ++ replaceAllGo pat rep fuel ((c :: t).drop pat.length)
    else
      c :: replaceAllGo pat rep fuel t

def pyReplace (pat rep s : String) : String :=
  ⟨replaceAllGo pat.data rep.data s.data.length s.data⟩

/-- Tail-recursive character count with a forced accumulator (matching on
the accumulator keeps it a literal step by step, so even kernel-side
evaluation runs in constant stack on long strings). -/
def lenGo : Nat → List Char → Nat
  | n, [] => n
  | 0, _ :: t => lenGo 1 t
  | n + 1, _ :: t => lenGo (n + 2) t

def lenL (s : String) : Nat := lenGo 0 s.data

/-- First occurrences only (models iterating a Python `set` built by
insertion where only membership/counting matters). -/
def dedupFirst : List String → List String :=
  go []
where
  go (seen : List String) : List String → List String
    | [] => []
    | x :: t => if seen.contains x then go seen t else x :: go (x :: seen) t

/-- Python `set(a); set.update(b)` iterated in insertion order. -/
def unionFirst (a b : List String) : List String := dedupFirst (a ++ b)

/-- Python `sep.join(parts)`. -/
def joinSep (sep : String) : List String → String
  | [] => ""
  | p :: t => t.foldl (fun acc x => acc ++ sep ++ x) p

/-- Stable insertion of `x` into a descending-sorted list: `x` goes after
every earlier element it does not strictly beat, which is exactly Python
`list.sort(key=..., reverse=True)` stability. -/
def insDesc (gt : α → α → Bool) (x : α) : List α → List α
  | [] => [x]
  | y :: ys => if gt x y then x :: y :: ys else y :: insDesc gt x ys

/-- Python `list.sort(key=k, reverse=True)` (stable descending sort). -/
def sortDescBy (gt : α → α → Bool) (l : List α) : List α :=
  l.foldl (fun acc x => insDesc gt x acc) []

/-! ## Windows path model (`ntpath`)

`os.path` on Windows is `ntpath`; the code uses `normpath`, `join`,
`dirname`, `basename`, `splitext` and `abspath` (on already-absolute
paths `abspath` is `normpath`). The model below reproduces `ntpath` for
drive-letter and relative paths (UNC prefixes are out of scope: the agent
only ever builds paths below a drive root). -/

def isSepC (c : Char) : Bool := c == '\\' || c == '/'

/-- `ntpath.splitdrive` restricted to drive-letter paths: splits a leading
`X:`. -/
def splitDriveL (cs : List Char) : List Char × List Char :=
  match cs with
  | a :: b :: t => if b == ':' then ([a, b], t) else ([], cs)
  | _ => ([], cs)

/-- Models `ntpath.normpath`: slashes become backslashes, repeated
separators collapse, `.` and `..` components resolve, trailing separators
drop (except at a root). -/
def normPath (s : String) : String :=
  if s.data.isEmpty then "." else
  let cs := s.data.map (fun c => if c == '/' then '\\' else c)
  let (drive, rest) := splitDriveL cs
  let rooted := match rest with
    | c :: _ => c == '\\'
    | [] => false
  let tail := if rooted then rest.drop 1 else rest
  let comps := splitOnCharL '\\' tail
  let newComps := comps.foldl
    (fun (acc : List (List Char)) comp =>
      if comp.isEmpty || comp == ['.'] then acc
      else if comp == ['.', '.'] then
        match acc with
        | last :: accT => if last == ['.', '.'] then comp :: acc else accT
        | [] => if rooted then [] else [comp]
      else comp :: acc) []
  let body := joinSep "\\" (newComps.reverse.map (⟨·⟩))
  let out := String.mk (drive ++ (if rooted then ['\\'] else [])) ++ body
  if out = "" then "." else out

/-- `ntpath.normpath` followed by lower-casing: the normal form under which
Windows compares paths, and the form the agent stores in its visited set. -/
def normLower (s : String) : String := pyLower (normPath s)

/-- Models `ntpath.join(a, b)` for the shapes the code uses (`b` a plain
child name, never absolute and never carrying a drive). -/
def pathJoin (a b : String) : String :=
  match a.data.reverse with
  | [] => b
  | c :: _ => if isSepC c || c == ':' then a ++ b else a ++ "\\" ++ b

/-- Models `ntpath.split`: `(head, tail)` split at the final separator of
the non-drive part; the head keeps a bare root separator. -/
def splitPathParts (s : String) : String × String :=
  let (drive, rest) := splitDriveL s.data
  let (headRev, tailRev) := go rest.reverse
  let head := headRev.reverse
  let head2 := (dropWhileL isSepC head.reverse).reverse
  let headKeep := if head2.isEmpty then head else head2
  (String.mk (drive ++ headKeep), String.mk tailRev.reverse)
where
  /-- On the reversed rest: the tail is everything before the first
  (reversed) separator. -/
  go : List Char → List Char × List Char
    | [] => ([], [])
    | c :: t => if isSepC c then (c :: t, []) else
        match go t with
        | (h, tl) => (h, c :: tl)

/-- `ntpath.dirname`. -/
def dirName (s : String) : String := (splitPathParts s).1

/-- `ntpath.basename`. -/
def baseName (s : String) : String := (splitPathParts s).2

/-- `ntpath.splitext`: split at the last dot of the final component,
unless only dots precede it there (so `.hidden` has no extension). -/
def splitExt (s : String) : String × String :=
  let cs := s.data
  let n := cs.length
  let sepIdx := lastIdx (fun c => isSepC c) cs
  let dotIdx := lastIdx (fun c => c == '.') cs
  match dotIdx with
  | none => (s, "")
  | some d =>
    let lo := match sepIdx with
      | none => 0
      | some i => i + 1
    if lo ≤ d ∧ ((List.range n).any (fun i => lo ≤ i ∧ i < d ∧ cs.get? i != some '.')) then
      (String.mk (cs.take d), String.mk (cs.drop d))
    else (s, "")
where
  /-- Index of the last character satisfying `p`. -/
  lastIdx (p : Char → Bool) (cs : List Char) : Option Nat :=
    cs.foldl (fun (acc : Option Nat × Nat) c =>
      (if p c then some acc.2 else acc.1, acc.2 + 1)) (none, 0) |>.1

/-- Python truthiness of an optional string (`None` and `""` are falsy). -/
def optTruthy : Option String → Bool
  | none => false
  | some s => !s.isEmpty

/-! ## Configuration (`src/config/settings.py`) -/

/-- `SYSTEM_CONFIG["setup_keywords"]`. -/
def setupKeywords : List String := ["setup", "install", "installer", "uninstall"]

/-- `SYSTEM_CONFIG["executable_extensions"]`. -/
def executableExts : List String := [".exe", ".lnk", ".bat", ".msi", ".appx"]

/-- `SYSTEM_CONFIG["other_file_extensions"]`. -/
def otherFileExts : List String :=
  [".py", ".sln", ".jar", ".app", ".pdf", ".doc", ".docx", ".txt", ".jpg",
   ".jpeg", ".png", ".gif", ".bmp", ".mp4", ".mp3", ".ppt", ".pptx", ".xls", ".xlsx"]

/-- `SYSTEM_CONFIG["skip_folders"]`. Note the first entry: the literal
string `"."`, matched as a *substring* by `list_folder_items`. -/
def skipFolders : List String :=
  [".", "system volume information", "$recycle.bin", "node_modules", "__pycache__"]

/-- `AGENT_CONFIG["max_items_per_folder"]`. -/
def maxItemsDefault : Nat := 50

/-- `AGENT_CONFIG["retry_attempts"]`. -/
def retryAttemptsCfg : Nat := 3

/-- `LRUCache` ttl of the global `_path_cache` (`cache.py`, 1800 s). -/
def cacheTtl : Nat := 1800

/-- `LRUCache` max size of the global `_path_cache` (`cache.py`, 200). -/
def cacheMaxSize : Nat := 200

/-! ## Data model -/

/-- One listed item: `{"name": item, "path": full_path}`. -/
structure Item where
  name : String
  path : String
deriving DecidableEq, Repr

/-- The success dictionary returned by `list_folder_items`. -/
structure Listing where
  folders : List Item
  executables : List Item
  otherFiles : List Item
  totalFolders : Nat
  totalExecutables : Nat
  path : String
deriving DecidableEq, Repr

/-- Observable side effects, in program order: a real `os.listdir`
enumeration of a directory, an oracle (`generate_content`) call, entry of
`_navigate_to_target` past its guards (with the normalized path and the
depth), an `_open_path`/`open_path` launch, and a browser launch. The
oracle event carries no payload (the prompt text is irrelevant to every
claim and huge). -/
inductive Ev where
  | scan (path : String)
  | oracle
  | visit (path : String) (depth : Nat)
  | openP (path : String)
  | browser (url : String)
deriving DecidableEq, Repr

/-- The file system: directories, files (both as lower-cased
`normpath` keys, which is how Windows resolves names), and the ordered
`os.listdir` children of each directory. -/
structure FileSys where
  dirs : List String
  files : List String
  children : List (String × List String)

def fsIsDir (fs : FileSys) (p : String) : Bool := fs.dirs.contains (normLower p)

def fsIsFile (fs : FileSys) (p : String) : Bool := fs.files.contains (normLower p)

/-- `os.path.exists`. -/
def fsExists (fs : FileSys) (p : String) : Bool := fsIsDir fs p || fsIsFile fs p

/-- `os.listdir`: `none` models the call raising `OSError`. -/
def fsListdir (fs : FileSys) (p : String) : Option (List String) :=
  (fs.children.find? (fun e => e.1 == normLower p)).map (·.2)

/-! ## Listing cache (`src/utils/cache.py`) -/

/-- One `OrderedDict` entry of the `LRUCache` together with its timestamp;
the list order is the `OrderedDict` order, head oldest. -/
structure CEntry where
  key : String
  val : Listing
  ts : Nat
deriving DecidableEq, Repr

abbrev Cache := List CEntry

/-- `LRUCache.get`: a hit moves the entry to the most-recent end without
refreshing its timestamp; an entry older than the TTL is deleted and
reported as a miss. -/
def cacheGet (c : Cache) (k : String) (now : Nat) : Option Listing × Cache :=
  match c.find? (fun e => e.key == k) with
  | none => (none, c)
  | some e =>
    if cacheTtl < now - e.ts then (none, c.filter (fun e2 => e2.key != k))
    else (some e.val, c.filter (fun e2 => e2.key != k) ++ [e])

/-- `LRUCache.set`: an existing key is moved to the most-recent end and
overwritten (fresh timestamp); a new key first evicts the oldest entry if
the cache is full. -/
def cacheSet (c : Cache) (k : String) (v : Listing) (now : Nat) : Cache :=
  if c.any (fun e => e.key == k) then
    c.filter (fun e => e.key != k) ++ [⟨k, v, now⟩]
  else
    (if cacheMaxSize ≤ c.length then c.drop 1 else c) ++ [⟨k, v, now⟩]

/-! ## Directory scanner (`src/utils/file_system.py`) -/

/-- The classification loop of `list_folder_items` (its `try` body): one
`os.listdir` pass classifying children into folders / executables /
other files. Items containing any skip-list substring (note `"."` is in
the skip list) or starting with `"."` are dropped; executable-extension
files with a setup keyword in the name are dropped; category lists are
truncated to `max_items` while the totals keep pre-truncation counts. -/
def scanFolder (fs : FileSys) (path : String) (maxItems : Nat) : Except String Listing :=
  match fsListdir fs path with
  | none => .error ("Error: cannot list " ++ path)
  | some items =>
    let step := fun (acc : List Item × List Item × List Item) (item : String) =>
      let (fo, ex, ot) := acc
      let itemPath := pathJoin path item
      let fullPath := normPath itemPath
      let il := pyLower item
      if skipFolders.any (fun sk => pySub sk il) || startsWithS item "." then acc
      else if fsIsDir fs itemPath then (fo ++ [⟨item, fullPath⟩], ex, ot)
      else if fsIsFile fs itemPath then
        let ext := pyLower (splitExt item).2
        if executableExts.contains ext then
          if setupKeywords.any (fun kw => pySub kw il) then acc
          else (fo, ex ++ [⟨item, fullPath⟩], ot)
        else if otherFileExts.contains ext then (fo, ex, ot ++ [⟨item, fullPath⟩])
        else acc
      else acc
    let (fo, ex, ot) := items.foldl step ([], [], [])
    .ok { folders := fo.take maxItems
          executables := ex.take maxItems
          otherFiles := ot.take maxItems
          totalFolders := fo.length
          totalExecutables := ex.length
          path := path }

deriving instance DecidableEq for Except

/-- Result of one `list_folder_items` call: the returned dictionary
(`Except` for the `{"error": ...}` shape), the cache afterwards, and the
I/O events performed. -/
structure LOut where
  res : Except String Listing
  cache : Cache
  evs : List Ev
deriving DecidableEq, Repr

/-- `list_folder_items(path, max_items, use_cache)`: default `max_items`
from config; missing path is an error before any cache read; cache hit
(with `use_cache`) returns the cached dictionary with no enumeration;
otherwise one scan, cached on success when `use_cache` is set. -/
def listFolderItemsC (fs : FileSys) (now : Nat) (path : String)
    (maxItems : Option Nat) (useCache : Bool) (c : Cache) : LOut :=
  if !fsExists fs path then
    ⟨.error ("Path does not exist: " ++ path), c, []⟩
  else if useCache then
    match cacheGet c path now with
    | (some l, c2) => ⟨.ok l, c2, []⟩
    | (none, c2) =>
      match scanFolder fs path (maxItems.getD maxItemsDefault) with
      | .ok l => ⟨.ok l, cacheSet c2 path l now, [.scan path]⟩
      | .error e => ⟨.error e, c2, [.scan path]⟩
  else
    match scanFolder fs path (maxItems.getD maxItemsDefault) with
    | .ok l => ⟨.ok l, c, [.scan path]⟩
    | .error e => ⟨.error e, c, [.scan path]⟩

/-- `format_folder_listing`. -/
def formatFolderListing (data : Except String Listing) : String :=
  match data with
  | .error e => "❌ " ++ e
  | .ok d =>
    let parts : List String :=
      (if !d.folders.isEmpty then
        ["📁 FOLDERS:"] ++ d.folders.map (fun f => "  - " ++ f.name ++ " -> " ++ f.path)
      else []) ++
      (if !d.executables.isEmpty then
        ["\n📄 EXECUTABLES:"] ++ d.executables.map (fun e => "  - " ++ e.name ++ " -> " ++ e.path)
      else []) ++
      (if !d.otherFiles.isEmpty then
        ["\n📄 OTHER FILES:"] ++ (d.otherFiles.take 10).map (fun f => "  - " ++ f.name ++ " -> " ++ f.path)
      else [])
    if parts.isEmpty then "📂 Folder is empty or contains no accessible items."
    else
      joinSep "\n" parts ++ "\n\n" ++
        ("Total: " ++ toString d.totalFolders ++ " folders, " ++
          toString d.totalExecutables ++ " executables")

/-- The stop-word set of `extract_keywords`. -/
def stopWords : List String :=
  ["open", "find", "launch", "search", "locate", "get", "show", "run", "start",
   "the", "a", "an", "in", "on", "at", "for", "to", "of", "and", "or", "but",
   "is", "are", "was", "were", "be", "been", "being", "have", "has", "had",
   "do", "does", "did", "will", "would", "could", "should", "may", "might"]

/-- `extract_keywords`: lower-cased whitespace tokens, stop words and
length-1 tokens removed; if that empties the list, the plain lower-cased
split is returned instead. -/
def extractKeywords (q : String) : List String :=
  let toks := pySplitWs q
  let words := toks.filterMap (fun w =>
    let x := pyStrip (pyLower w)
    if !stopWords.contains x && 1 < x.length then some x else none)
  if !words.isEmpty then words
  else toks.filterMap (fun w => if 0 < (pyStrip w).length then some (pyLower w) else none)

/-! ## Response repair regexes (`_parse_model_response`, `agent.py`)

Each Python regex used by the parser is embedded as a deterministic
character scanner with the same leftmost-match / greedy semantics on the
pattern in question (the patterns are simple enough that the match, when
it exists, is unique). `re.IGNORECASE` is reflected by case-folding the
fixed words and letter classes. -/

def isAsciiLetterC (c : Char) : Bool :=
  ('A' ≤ c && c ≤ 'Z') || ('a' ≤ c && c ≤ 'z')

/-- The three-character sequence `[A-Z]:[/\\]` (with `IGNORECASE`). -/
def hasDriveSeqAt : List Char → Bool
  | a :: b :: c :: _ => isAsciiLetterC a && b == ':' && isSepC c
  | _ => false

/-- `re.search(r"[A-Z]:[/\\]", s, re.IGNORECASE)` as a Boolean. -/
def hasDriveSeq : List Char → Bool
  | [] => false
  | c :: t => hasDriveSeqAt (c :: t) || hasDriveSeq t

/-- The three-character sequence `[A-Z]:\\` (backslash only). -/
def hasDriveBackAt : List Char → Bool
  | a :: b :: c :: _ => isAsciiLetterC a && b == ':' && c == '\\'
  | _ => false

def hasDriveBack : List Char → Bool
  | [] => false
  | c :: t => hasDriveBackAt (c :: t) || hasDriveBack t

/-- Matches `"key"\s*:\s*"` (case-insensitive key) at the head of `cs`;
returns the rest after the opening content quote. The consumed prefix is
recovered by length difference (the replacement keeps group 1 verbatim). -/
def matchQuotedKey (key : List Char) (cs : List Char) : Option (List Char) :=
  match cs with
  | '"' :: rest =>
    if isPrefixL key (rest.map Char.toLower) then
      match rest.drop key.length with
      | '"' :: rest2 =>
        match dropWhileL isSpaceC rest2 with
        | ':' :: rest3 =>
          match dropWhileL isSpaceC rest3 with
          | '"' :: rest4 => some rest4
          | _ => none
        | _ => none
      | _ => none
    else none
  | _ => none

/-- `re.sub` with the first repair pattern
`(quoted path key)(value with drive separator)`: for every occurrence of
a quoted `path` field whose value contains a drive-letter separator
sequence, slashes become backslashes, lone backslashes are doubled (the
`\\(?!\\)` lookahead), and runs of four backslashes collapse to two. -/
def doubleLoneBackslashes : List Char → List Char
  | [] => []
  | '\\' :: rest =>
    match rest with
    | '\\' :: _ => '\\' :: doubleLoneBackslashes rest
    | _ => '\\' :: '\\' :: doubleLoneBackslashes rest
  | c :: rest => c :: doubleLoneBackslashes rest

def escValueFix (content : List Char) : List Char :=
  if hasDriveSeq content then
    let v1 := content.map (fun c => if c == '/' then '\\' else c)
    let v2 := doubleLoneBackslashes v1
    (pyReplace "\\\\\\\\" "\\\\" ⟨v2⟩).data
  else content

def escPass1Go : Nat → List Char → List Char
  | 0, cs => cs
  | fuel + 1, cs =>
    match cs with
    | [] => []
    | c :: t =>
      match matchQuotedKey "path".data cs with
      | some afterQuote =>
        let content := afterQuote.takeWhile (fun d => d != '"')
        let afterContent := afterQuote.drop content.length
        match afterContent with
        | '"' :: rest =>
          if hasDriveSeq content then
            let consumedKey := cs.take (cs.length - afterQuote.length)
            consumedKey ++ escValueFix content ++ '"' :: escPass1Go fuel rest
          else c :: escPass1Go fuel t
        | _ => c :: escPass1Go fuel t
      | none => c :: escPass1Go fuel t

/-- `re.sub` with the second repair pattern
`("path"\s*:\s*")([^"]*[A-Z]:\\[^"]*?)(")`: every backslash of a
backslash-bearing quoted `path` value is doubled (even ones the first
pass already doubled). -/
def escPass2Go : Nat → List Char → List Char
  | 0, cs => cs
  | fuel + 1, cs =>
    match cs with
    | [] => []
    | c :: t =>
      match matchQuotedKey "path".data cs with
      | some afterQuote =>
        let content := afterQuote.takeWhile (fun d => d != '"')
        let afterContent := afterQuote.drop content.length
        match afterContent with
        | '"' :: rest =>
          if hasDriveBack content then
            let consumedKey := cs.take (cs.length - afterQuote.length)
            let fixed := content.flatMap (fun d => if d == '\\' then ['\\', '\\'] else [d])
            consumedKey ++ fixed ++ '"' :: escPass2Go fuel rest
          else c :: escPass2Go fuel t
        | _ => c :: escPass2Go fuel t
      | none => c :: escPass2Go fuel t

/-- `escape_backslashes_in_paths`: both `re.sub` passes in order. -/
def escapeBackslashesInPaths (s : String) : String :=
  let p1 := escPass1Go s.data.length s.data
  ⟨escPass2Go p1.length p1⟩

/-! ## JSON (`json.loads`) restricted to the oracle contract

The oracle contract (and every parse consumer in the agent) is a flat
object of string fields, plus the Boolean field of the search detector.
`jsonLoads` models `json.loads` on exactly that fragment: a single
object whose values are strings (with strict escape handling: an invalid
escape such as `\G` fails, as in Python) or `true`/`false`. Any other
JSON shape is treated as a parse failure. -/

inductive JVal where
  | s (v : String)
  | b (v : Bool)
deriving DecidableEq, Repr

abbrev JObj := List (String × JVal)

/-- Later duplicate keys overwrite earlier ones (Python `dict`). -/
def objPut (o : JObj) (k : String) (v : JVal) : JObj :=
  o.filter (fun e => e.1 != k) ++ [(k, v)]

def objGet (o : JObj) (k : String) : Option JVal :=
  (o.find? (fun e => e.1 == k)).map (·.2)

/-- `decision.get(k)` when the consumer compares with / uses a string:
a missing key or a non-string value behaves like no usable string. -/
def objGetStr (o : JObj) (k : String) : Option String :=
  match objGet o k with
  | some (.s v) => some v
  | _ => none

/-- `result.get(k, False)` followed by Python truthiness. -/
def objGetTruthy (o : JObj) (k : String) : Bool :=
  match objGet o k with
  | some (.b v) => v
  | some (.s v) => !v.isEmpty
  | none => false

def jsonWsC (c : Char) : Bool := c == ' ' || c == '\t' || c == '\n' || c == '\x0d'

def hexVal (c : Char) : Option Nat :=
  match c.toNat with
  | n =>
    if 48 ≤ n && n ≤ 57 then some (n - 48)
    else if 97 ≤ n && n ≤ 102 then some (n - 87)
    else if 65 ≤ n && n ≤ 70 then some (n - 55)
    else none

/-- JSON string body after the opening quote; strict: control characters
and unknown escapes fail. -/
def jsonStrGo : Nat → List Char → Option (List Char × List Char)
  | 0, _ => none
  | _ + 1, [] => none
  | fuel + 1, c :: t =>
    if c == '"' then some ([], t)
    else if c == '\\' then
      match t with
      | e :: t2 =>
        let dec : Option (Char × List Char) :=
          if e == '"' then some ('"', t2)
          else if e == '\\' then some ('\\', t2)
          else if e == '/' then some ('/', t2)
          else if e == 'n' then some ('\n', t2)
          else if e == 't' then some ('\t', t2)
          else if e == 'r' then some ('\x0d', t2)
          else if e == 'b' then some ('\x08', t2)
          else if e == 'f' then some ('\x0c', t2)
          else if e == 'u' then
            match t2 with
            | h1 :: h2 :: h3 :: h4 :: t3 =>
              match hexVal h1, hexVal h2, hexVal h3, hexVal h4 with
              | some a, some b, some c2, some d =>
                let n := ((a * 16 + b) * 16 + c2) * 16 + d
                if n < 0xd800 then some (Char.ofNat n, t3) else none
              | _, _, _, _ => none
            | _ => none
          else none
        match dec with
        | some (ch, rest) =>
          match jsonStrGo fuel rest with
          | some (body, rest2) => some (ch :: body, rest2)
          | none => none
        | none => none
      | [] => none
    else if c.toNat < 0x20 then none
    else
      match jsonStrGo fuel t with
      | some (body, rest2) => some (c :: body, rest2)
      | none => none

def jsonValAt (fuel : Nat) (cs : List Char) : Option (JVal × List Char) :=
  match cs with
  | '"' :: t =>
    match jsonStrGo fuel t with
    | some (body, rest) => some (.s ⟨body⟩, rest)
    | none => none
  | 't' :: 'r' :: 'u' :: 'e' :: rest => some (.b true, rest)
  | 'f' :: 'a' :: 'l' :: 's' :: 'e' :: rest => some (.b false, rest)
  | _ => none

def jsonMembersGo : Nat → JObj → List Char → Option (JObj × List Char)
  | 0, _, _ => none
  | fuel + 1, acc, cs =>
    match dropWhileL jsonWsC cs with
    | '"' :: t =>
      match jsonStrGo fuel t with
      | some (keyBody, rest) =>
        match dropWhileL jsonWsC rest with
        | ':' :: rest2 =>
          match jsonValAt fuel (dropWhileL jsonWsC rest2) with
          | some (v, rest3) =>
            let acc2 := objPut acc ⟨keyBody⟩ v
            match dropWhileL jsonWsC rest3 with
            | ',' :: rest4 => jsonMembersGo fuel acc2 rest4
            | '}' :: rest4 => some (acc2, rest4)
            | _ => none
          | none => none
        | _ => none
      | none => none
    | _ => none

/-- `json.loads` on the flat-object fragment described above; requires the
whole input to be consumed. -/
def jsonLoads (s : String) : Option JObj :=
  match dropWhileL jsonWsC s.data with
  | '{' :: t =>
    let res :=
      match dropWhileL jsonWsC t with
      | '}' :: rest => some (([] : JObj), rest)
      | _ => jsonMembersGo s.data.length [] t
    match res with
    | some (o, rest) => if (dropWhileL jsonWsC rest).isEmpty then some o else none
    | none => none
  | _ => none

/-- The apostrophe character (avoids quote-literal noise below). -/
def aposC : Char := Char.ofNat 39

/-! ## Fallback extraction (`_parse_model_response`, `except` branch) -/

/-- `re.search` driver: leftmost position whose attempt succeeds. -/
def searchAt (att : List Char → Option α) : List Char → Option α
  | [] => att []
  | c :: t =>
    match att (c :: t) with
    | some r => some r
    | none => searchAt att t

/-- Attempt for `"key"\s*:\s*"([^"]+)"` at the current position; with
`needDrive`, additionally require the `[A-Z]:\\` sequence inside the
captured group (second pattern of the cascade). -/
def attQuotedVal (key : String) (needDrive : Bool) (cs : List Char) : Option String :=
  match matchQuotedKey key.data cs with
  | some afterQuote =>
    let content := afterQuote.takeWhile (fun d => d != '"')
    match afterQuote.drop content.length with
    | '"' :: _ =>
      if !content.isEmpty && (!needDrive || hasDriveBack content) then some ⟨content⟩ else none
    | _ => none
  | none => none

/-- `[A-Z]:\\` occurring at index ≥ 1 with at least one character after
the backslash (the third-pattern capture shape: nonempty text, then
the drive sequence, then nonempty text). -/
def hasDriveBackProper : List Char → Bool
  | a :: b :: c :: d :: t =>
    (isAsciiLetterC a && b == ':' && c == '\\') || hasDriveBackProper (b :: c :: d :: t)
  | _ => false

def innerDriveOk : List Char → Bool
  | [] => false
  | _ :: t => hasDriveBackProper t

/-- Attempt for the third-pattern shape
`key`, an optional quote, colon, a quote, a capture, a quote (quotes
meaning double or single) at the current position; the
optional opening quote is tried greedily first, as the regex engine does. -/
def attLooseVal (key : String) (needDrive : Bool) (cs : List Char) : Option String :=
  if isPrefixL key.data (cs.map Char.toLower) then
    let rest0 := cs.drop key.length
    let branch : List Char → Option String := fun rest =>
      match dropWhileL isSpaceC rest with
      | ':' :: r2 =>
        match dropWhileL isSpaceC r2 with
        | q :: r4 =>
          if q == '"' || q == aposC then
            let content := r4.takeWhile (fun d => d != '"' && d != aposC)
            match r4.drop content.length with
            | e :: _ =>
              if (e == '"' || e == aposC) && !content.isEmpty &&
                  (!needDrive || innerDriveOk content) then
                some ⟨content⟩
              else none
            | [] => none
          else none
        | [] => none
      | _ => none
    let withOpt : Option String :=
      match rest0 with
      | q :: r => if q == '"' || q == aposC then branch r else none
      | [] => none
    match withOpt with
    | some v => some v
    | none => branch rest0
  else none

/-- The three `(path_pattern, action_pattern)` pairs, tried in order; a
pair succeeds when both its searches succeed. The extracted path then
has double backslashes collapsed to single ones; the second Python
replace there is the identity. -/
def tryPatternPairs (s : String) : Option (String × String) :=
  let cs := s.data
  let pairs : List (Option String × Option String) :=
    [(searchAt (attQuotedVal "path" false) cs, searchAt (attQuotedVal "action" false) cs),
     (searchAt (attQuotedVal "path" true) cs, searchAt (attQuotedVal "action" false) cs),
     (searchAt (attLooseVal "path" true) cs, searchAt (attLooseVal "action" false) cs)]
  pairs.findSome? (fun pr =>
    match pr with
    | (some p, some a) => some (a, pyReplace "\\\\" "\\" p)
    | _ => none)

/-- Character class of the raw drive-path patterns: anything except
whitespace, quotes, angle brackets and closing parenthesis. -/
def pathTokC (c : Char) : Bool :=
  !isSpaceC c && !(c == '"' || c == aposC || c == '<' || c == '>' || c == ')')

/-- `re.findall` of a drive letter, colon, separator, then a nonempty
run of path-token characters (case-insensitive):
non-overlapping leftmost matches. -/
def findAllDrive (sepOk : Char → Bool) : Nat → List Char → List String
  | 0, _ => []
  | _ + 1, [] => []
  | fuel + 1, a :: t =>
    match a :: t with
    | a :: b :: c :: rest =>
      if isAsciiLetterC a && b == ':' && sepOk c then
        let run := rest.takeWhile pathTokC
        if run.isEmpty then findAllDrive sepOk fuel t
        else String.mk (a :: b :: c :: run) :: findAllDrive sepOk fuel (rest.drop run.length)
      else findAllDrive sepOk fuel t
    | _ => []

/-- `sorted(set(ms), key=len, reverse=True)`: duplicates removed (first
occurrence kept — the Python set order is hash-based; only the stable
by-length order matters downstream) and stable-sorted by length,
longest first. -/
def orderByLenDesc (ms : List String) : List String :=
  sortDescBy (fun a b => b.data.length < a.data.length) (dedupFirst ms)

/-- The last repair stage: scan the raw text for drive-letter path tokens
(backslash pattern first, then forward-slash), prefer longer candidates,
normalize slashes, and accept an existing path — or its existing parent —
longer than three characters. -/
def rawPathScan (fs : FileSys) (s : String) : Option String :=
  let stage := fun (sepOk : Char → Bool) =>
    let ms := findAllDrive sepOk s.data.length s.data
    (orderByLenDesc ms).findSome? (fun p0 =>
      let p1 := pyRstripSet ['.', ',', ';', ':', ')'] (pyStrip p0)
      let p := pyReplace "/" "\\" p1
      if 3 < p.data.length && fsExists fs p then some p
      else if 3 < p.data.length then
        let parent := dirName p
        if fsExists fs parent && 3 < parent.data.length then some parent else none
      else none)
  match stage (fun c => c == '\\') with
  | some p => some p
  | none => stage (fun c => c == '/')

/-! ## `_parse_model_response` (`agent.py`, lines 84–212) -/

/-- The markdown-fence stripping at the head of the `try` block. -/
def stripFences (r0 : String) : String :=
  let r1 := pyStrip r0
  let r2 := if startsWithS r1 "```json" then String.mk (r1.data.drop 7) else r1
  let r3 := if startsWithS r2 "```" then String.mk (r2.data.drop 3) else r2
  let r4 := if endsWithS r3 "```" then String.mk (r3.data.take (r3.data.length - 3)) else r3
  pyStrip r4

/-- `_parse_model_response`: empty answer → error dictionary; otherwise
strip fences, run both escape passes and try `json.loads`; on failure try
the three extraction pattern pairs (note: against the *repaired* text —
the code assigns `original_response = response` after the fixes); then
the raw drive-path scan; finally the error dictionary. The function is
total: the only exception (`json.JSONDecodeError`) is caught. -/
def parseModelResponse (fs : FileSys) (response : String) : JObj :=
  if response.isEmpty then [("action", .s "error"), ("reason", .s "Empty response")]
  else
    let fixed := escapeBackslashesInPaths (stripFences response)
    match jsonLoads fixed with
    | some obj => obj
    | none =>
      match tryPatternPairs fixed with
      | some (action, path) => [("action", .s action), ("path", .s path)]
      | none =>
        match rawPathScan fs fixed with
        | some p => [("action", .s "open"), ("path", .s p)]
        | none => [("action", .s "error"), ("reason", .s "Invalid JSON")]

/-! ## Effect monad

State = the process-wide listing cache plus the visited set of the
current `_navigate_to_target` call tree; every run also yields the list
of I/O events it performed, in order. -/

/-- Result of one monadic step. -/
structure MRes (α : Type) where
  val : α
  cache : Cache
  vis : List String
  evs : List Ev

def M (α : Type) : Type := Cache → List String → MRes α

def M.pure (a : α) : M α := fun c v => ⟨a, c, v, []⟩

def M.bind (m : M α) (f : α → M β) : M β := fun c v =>
  let r := m c v
  let r2 := f r.val r.cache r.vis
  ⟨r2.val, r2.cache, r2.vis, r.evs ++ r2.evs⟩

/-- Record one event. -/
def emitM (e : Ev) : M Unit := fun c v => ⟨(), c, v, [e]⟩

/-- One `llm.generate_content(prompt)` call, as seen by the engine: the
oracle function gives the final client result (`None` or text). -/
def askOracle (oracle : String → Option String) (prompt : String) : M (Option String) :=
  fun c v => ⟨oracle prompt, c, v, [.oracle]⟩

/-- `list_folder_items` lifted into the monad. -/
def listItemsM (fs : FileSys) (now : Nat) (path : String) (maxItems : Option Nat)
    (useCache : Bool) : M (Except String Listing) := fun c v =>
  let o := listFolderItemsC fs now path maxItems useCache c
  ⟨o.res, o.cache, v, o.evs⟩

/-- The visited-set guard of `_navigate_to_target` (lines 459–463):
an already-visited normalized path aborts (`false`); otherwise the path
is added and the entry of the directory is recorded. -/
def enterGuard (p : String) (d : Nat) : M Bool := fun c v =>
  if v.contains p then ⟨false, c, v, []⟩
  else ⟨true, c, v ++ [p], [.visit p d]⟩

/-! ## Search detector (`src/utils/google_search.py`)

The handful of regular expressions are embedded with a tiny
nondeterministic matcher: a pattern maps the text to the list of possible
remainders, ordered by the backtracking priority of the Python engine
(greedy alternatives first), so that the head of the list at the leftmost
matching position is exactly the match `re` chooses. -/

def Pat := List Char → List (List Char)

def pLit (w : String) : Pat := fun cs =>
  if isPrefixL w.data cs then [cs.drop w.data.length] else []

/-- One-or-more whitespace, longest first. -/
def pWsPlus : Pat := fun cs =>
  let n := (cs.takeWhile isSpaceC).length
  (List.range n).map (fun i => cs.drop (n - i))

/-- Zero-or-more whitespace, longest first. -/
def pWsStar : Pat := fun cs =>
  let n := (cs.takeWhile isSpaceC).length
  (List.range (n + 1)).map (fun i => cs.drop (n - i))

/-- One-or-more of any character except newline, longest first. -/
def pDotPlus : Pat := fun cs =>
  let n := (cs.takeWhile (fun c => c != '\n')).length
  (List.range n).map (fun i => cs.drop (n - i))

def pSeq (a b : Pat) : Pat := fun cs => (a cs).flatMap b

def pAlt (a b : Pat) : Pat := fun cs => a cs ++ b cs

def pOpt (a : Pat) : Pat := fun cs => a cs ++ [cs]

def pSeqs : List Pat → Pat
  | [] => fun cs => [cs]
  | p :: t => pSeq p (pSeqs t)

/-- `re.search(p, s)`: does some position match? -/
def reSearchB (p : Pat) : List Char → Bool
  | [] => !(p []).isEmpty
  | c :: t => !(p (c :: t)).isEmpty || reSearchB p t

/-- `(for|about|on)`. -/
def pForAboutOn : Pat := pAlt (pLit "for") (pAlt (pLit "about") (pLit "on"))

/-- `SEARCH_PHRASES` of `google_search.py`, in order. -/
def searchPhrases : List Pat :=
  [pSeqs [pLit "search", pWsPlus, pForAboutOn, pWsPlus],
   pSeqs [pLit "google", pWsPlus, pOpt (pSeq (pLit "search") pWsPlus), pOpt pForAboutOn, pWsStar],
   pSeqs [pLit "look", pWsPlus, pLit "up", pWsPlus],
   pSeqs [pLit "find", pWsPlus, pOpt (pSeq (pLit "information") pWsPlus),
          pAlt (pLit "about") (pLit "on"), pWsPlus],
   pSeqs [pLit "what", pWsPlus, pLit "is", pWsPlus],
   pSeqs [pLit "who", pWsPlus, pLit "is", pWsPlus],
   pSeqs [pLit "where", pWsPlus, pLit "is", pWsPlus],
   pSeqs [pLit "how", pWsPlus, pLit "to", pWsPlus],
   pSeqs [pLit "explain", pWsPlus],
   pSeqs [pLit "tell", pWsPlus, pLit "me", pWsPlus, pLit "about", pWsPlus],
   pSeqs [pLit "information", pWsPlus, pLit "about", pWsPlus]]

/-- `SEARCH_KEYWORDS` of `google_search.py`. -/
def searchKeywords : List String :=
  ["search", "google", "look up", "find information about", "what is", "who is",
   "where is", "how to", "explain", "tell me about", "information about",
   "search for", "search about", "google search", "web search", "internet search"]

/-- The loose pattern `(search|google)\s+(for|about|on)?\s+.+`. -/
def pLoose : Pat :=
  pSeqs [pAlt (pLit "search") (pLit "google"), pWsPlus, pOpt pForAboutOn, pWsPlus, pDotPlus]

/-- The anchored question-word pattern `^(what|who|where|when|why|how)\s+`. -/
def pQuestionStart : Pat :=
  pSeq (pAlt (pLit "what") (pAlt (pLit "who") (pAlt (pLit "where")
    (pAlt (pLit "when") (pAlt (pLit "why") (pLit "how")))))) pWsPlus

/-- `is_search_request`: fast deterministic classifier. -/
def isSearchRequest (query : String) : Bool :=
  if query.isEmpty || (pyStrip query).data.length < 3 then false
  else
    let ql := pyStrip (pyLower query)
    searchPhrases.any (fun p => reSearchB p ql.data) ||
    searchKeywords.any (fun kw => startsWithS ql kw) ||
    reSearchB pLoose ql.data ||
    ((!(pQuestionStart ql.data).isEmpty || endsWithS ql "?") &&
      (pySplitWs ql).length ≤ 10)

/-- The anchored prefix patterns removed (in order) by
`extract_search_query`. -/
def removePrefixPats : List Pat :=
  [pSeqs [pLit "search", pWsPlus, pForAboutOn, pWsPlus],
   pSeqs [pLit "google", pWsPlus, pOpt (pSeq (pLit "search") pWsPlus), pOpt pForAboutOn, pWsStar],
   pSeqs [pLit "look", pWsPlus, pLit "up", pWsPlus],
   pSeqs [pLit "find", pWsPlus, pOpt (pSeq (pLit "information") pWsPlus),
          pAlt (pLit "about") (pLit "on"), pWsPlus],
   pSeqs [pLit "what", pWsPlus, pLit "is", pWsPlus],
   pSeqs [pLit "who", pWsPlus, pLit "is", pWsPlus],
   pSeqs [pLit "where", pWsPlus, pLit "is", pWsPlus],
   pSeqs [pLit "how", pWsPlus, pLit "to", pWsPlus],
   pSeqs [pLit "explain", pWsPlus],
   pSeqs [pLit "tell", pWsPlus, pLit "me", pWsPlus, pLit "about", pWsPlus],
   pSeqs [pLit "information", pWsPlus, pLit "about", pWsPlus],
   pSeqs [pLit "web", pWsPlus, pLit "search", pWsPlus, pOpt (pAlt (pLit "for") (pLit "about")), pWsStar],
   pSeqs [pLit "internet", pWsPlus, pLit "search", pWsPlus, pOpt (pAlt (pLit "for") (pLit "about")), pWsStar]]

/-- `re.sub` of one anchored prefix pattern (`IGNORECASE`): the pattern
is matched at position 0 against the lower-cased text, removing the
prefix the engine prefers (head of the priority-ordered remainders). -/
def removePrefixPat (p : Pat) (s : String) : String :=
  match p (pyLower s).data with
  | [] => s
  | rem :: _ => String.mk (s.data.drop (s.data.length - rem.length))

/-- `extract_search_query`. -/
def extractSearchQuery (query : String) : String :=
  let sq := removePrefixPats.foldl (fun acc p => removePrefixPat p acc) query
  let sq2 := pyRstripSet ['?'] (pyStrip sq)
  if sq2.isEmpty || (pyStrip sq2).data.length < 2 then pyStrip query
  else pyStrip sq2

/-- `urllib.parse.quote_plus` on ASCII text (letters, digits and `_.-~`
kept, space becomes `+`, the rest percent-encoded). -/
def quotePlus (s : String) : String :=
  ⟨s.data.flatMap (fun c =>
    if isAsciiLetterC c || ('0' ≤ c && c ≤ '9') || c == '_' || c == '.' || c == '-' || c == '~' then [c]
    else if c == ' ' then ['+']
    else
      let n := c.toNat
      let hex := fun (k : Nat) => "0123456789ABCDEF".data.getD k '0'
      ['%', hex (n / 16 % 16), hex (n % 16)])⟩

/-- `open_google_search`: extracts the query, builds the Google URL and
opens the browser (modelled as always succeeding). -/
def openGoogleSearchM (query : String) : M Bool :=
  M.bind (emitM (.browser ("https://www.google.com/search?q=" ++ quotePlus (extractSearchQuery query))))
    (fun _ => M.pure true)

/-- The binary-classification prompt of `is_search_request_with_llm`. -/
def searchDetectPrompt (query : String) : String :=
  "Analyze the following user query and determine if the user is asking for a web/Google search to find information online, or if they are asking to find/open a file, folder, or application on their computer.\n\nUser Query: \"" ++ query ++ "\"\n\nRespond with ONLY a JSON object in this exact format:\n\x7b\"is_search_request\": true/false, \"reason\": \"brief explanation\"\x7d\n\nExamples:\n- \"search for python tutorials\" -> \x7b\"is_search_request\": true, \"reason\": \"explicit search request\"\x7d\n- \"what is machine learning\" -> \x7b\"is_search_request\": true, \"reason\": \"information-seeking question\"\x7d\n- \"open chrome\" -> \x7b\"is_search_request\": false, \"reason\": \"requesting to open an application\"\x7d\n- \"find my documents folder\" -> \x7b\"is_search_request\": false, \"reason\": \"requesting to find a local folder\"\x7d\n- \"search for python\" -> \x7b\"is_search_request\": true, \"reason\": \"explicit search request\"\x7d\n- \"open python\" -> \x7b\"is_search_request\": false, \"reason\": \"requesting to open an application\"\x7d\n\nIMPORTANT: Only return true for search requests if the user is clearly asking to search the web/Google for information. If they\x27re asking to find or open something on their computer, return false."

/-- `is_search_request_with_llm`: short queries are never searches; a
clear pattern match short-circuits; otherwise the oracle is asked and a
missing/unparseable answer falls back to the pattern classifier. -/
def isSearchRequestWithLLM (oracle : String → Option String) (query : String) : M Bool :=
  if query.isEmpty || (pyStrip query).data.length < 3 then M.pure false
  else if isSearchRequest query then M.pure true
  else
    M.bind (askOracle oracle (searchDetectPrompt query)) (fun resp =>
      match resp with
      | none => M.pure (isSearchRequest query)
      | some r =>
        if r.isEmpty then M.pure (isSearchRequest query)
        else
          match jsonLoads (stripFences r) with
          | some obj => M.pure (objGetTruthy obj "is_search_request")
          | none => M.pure (isSearchRequest query))

/-- `check_and_open_search` (the agent always passes its llm). -/
def checkAndOpenSearch (oracle : String → Option String) (query : String) :
    M (Bool × Option String) :=
  M.bind (isSearchRequestWithLLM oracle query) (fun isS =>
    if isS then
      M.bind (openGoogleSearchM query) (fun success =>
        M.pure (true, if success then some (extractSearchQuery query) else none))
    else M.pure (false, none))

/-! ## Oracle client retry loop (`src/utils/gemini_client.py`) -/

/-- One underlying `self.model.generate_content` outcome: a reply whose
usable text is `t` (empty models a falsy response or missing text), or a
raised exception with message `msg`. -/
inductive BackendR where
  | ok (t : String)
  | exn (msg : String)

/-- The quota / rate-limit test of `GeminiClient.generate_content`. -/
def isQuotaMsg (m : String) : Bool :=
  pySub "429" m || pySub "quota" (pyLower m) || pySub "rate limit" (pyLower m)

/-- The retry loop body: `remaining` attempts left, `i` the current
attempt index; returns the result and the number of attempts performed. -/
def genGo (backend : Nat → BackendR) : Nat → Nat → Option String × Nat
  | 0, i => (none, i)
  | remaining + 1, i =>
    match backend i with
    | .ok t =>
      if !t.isEmpty then (some t, i + 1)
      else if remaining == 0 then (none, i + 1)
      else genGo backend remaining (i + 1)
    | .exn m =>
      if isQuotaMsg m then (none, i + 1)
      else if remaining == 0 then (none, i + 1)
      else genGo backend remaining (i + 1)

/-- `GeminiClient.generate_content(prompt, retry)`: a bounded retry loop
(`AGENT_CONFIG["retry_attempts"]` = 3) in which a detected quota /
rate-limit exception returns `None` immediately, with no further
attempts. -/
def genContentGemini (backend : Nat → BackendR) (retry : Bool) : Option String × Nat :=
  genGo backend (if retry then retryAttemptsCfg else 1) 0

/-! ## The agent (`src/agent/agent.py`) -/

/-- The agent configuration: the enumerated partitions,
`AGENT_CONFIG["max_depth"]`, `AGENT_CONFIG["skip_c_drive_initially"]`,
and the (fixed within one resolve call) clock value. -/
structure AgentCtx where
  partitions : List String
  maxDepth : Nat := 10
  skipC : Bool := true
  now : Nat := 0

/-- `_get_system_prompt` (the text is reproduced verbatim; braces and
apostrophes are written as character escapes). -/
def getSystemPrompt (partitions : List String) : String :=
  "You are an intelligent file system navigator. Your job is to help users find and open files/folders on their Windows PC.\n\nAVAILABLE PARTITIONS: " ++ joinSep ", " partitions ++ "\n\nYOUR WORKFLOW:\n1. When the user asks for something, I will show you the contents of a folder\n2. Analyze the folder listing CAREFULLY and find the EXACT match for the user\x27s query\n3. Respond with ONLY a JSON object in this exact format:\n   \x7b\"action\": \"explore\", \"path\": \"full_path_to_folder\"\x7d\n   OR\n   \x7b\"action\": \"open\", \"path\": \"full_path_to_file_or_folder\"\x7d\n   OR\n   \x7b\"action\": \"not_found\", \"reason\": \"explanation\"\x7d\n\nCRITICAL RULES:\n- MATCH THE QUERY: Look for folders/files that contain keywords from the user\x27s query\n- Be SMART: Match partial words, handle common variations, and be flexible with spelling\n- DO NOT choose folders that don\x27t contain any keywords from the query\n- SMART FOLDER DETECTION: If a folder contains multiple items (files/folders) that match the query, that folder itself is likely the target - open it directly\n- If you see a folder that might contain what the user wants, choose \"explore\" with that folder\x27s path\n- If you find the exact file/folder the user wants, choose \"open\" with its path\n- If the current folder has matching items, consider opening the current folder itself\n- If nothing matches after reasonable exploration, choose \"not_found\"\n- Prefer folders over setup/install files (unless user explicitly asks for setup)\n- Always use full absolute paths with DOUBLE backslashes (e.g., \"D:\\\\Program Files\\\\Application\")\n- IMPORTANT: Escape backslashes in paths - use \\\\ instead of \\ in JSON strings\n- USE ONLY PATHS FROM THE LISTING: Copy the EXACT path shown after \"->\" in the folder listing, don\x27t create new paths\n- Be flexible with spelling mistakes and variations in the query\n\nIMPORTANT: Respond ONLY with valid JSON, no other text."

/-- The `_explore_partition` prompt (lines 357–380). -/
def explorePrompt (ctx : AgentCtx) (q partition formatted : String) : String :=
  getSystemPrompt ctx.partitions ++ "\n\nUser Query: \"" ++ q ++ "\"\n\nCurrent Location: " ++ partition ++ "\n\nFolder Contents:\n" ++ formatted ++ "\n\nAnalyze the folders above CAREFULLY. Which folder do you think contains what the user is looking for?\n\nSMART DECISION RULES:\n1. If the CURRENT PARTITION (Current Location: " ++ partition ++ ") contains multiple items (files/folders) that match the user\x27s query,\n   the partition itself is likely the target - choose \"open\" with the partition path: \"" ++ partition ++ "\"\n2. Match the MAIN keywords from the user\x27s query to folder names\n3. Look for folders that contain keywords from the query (e.g., if query has \"davinci\" and \"resolve\", look for folders with those words)\n4. DO NOT choose folders that don\x27t contain any keywords from the query\n5. Prioritize folders that match MORE keywords from the query\n6. If you see a folder that matches, explore it. If you see the exact item, open it.\n7. USE ONLY PATHS FROM THE LISTING ABOVE - copy the path exactly as shown after \"->\"\n8. Be precise: only choose folders that actually match the query keywords\n9. IMPORTANT: If the current partition has matching items, prefer opening the partition over exploring subfolders\n10. If the user didn\x27t mention setup and the folder you found contains a setup file, continue scanning to find the exact item the user is looking for\n11. Only return the setup if the user asked for it or there is nothing else"

/-- The `_navigate_to_target` prompt (lines 575–597; rule 1 of the
source ends with a trailing space before the line break). -/
def navPrompt (ctx : AgentCtx) (q start formatted : String) : String :=
  getSystemPrompt ctx.partitions ++ "\n\nUser Query: \"" ++ q ++ "\"\n\nCurrent Location: " ++ start ++ "\n\nFolder Contents:\n" ++ formatted ++ "\n\nAnalyze the contents CAREFULLY. Which folder should I explore next to find what the user wants?\n\nSMART DECISION RULES:\n1. If the CURRENT FOLDER (Current Location) contains multiple items (files/folders) that match the user\x27s query, \n   the current folder itself is likely the target - choose \"open\" with the current folder path: \"" ++ start ++ "\"\n2. If you see a specific file/folder that exactly matches the query, choose \"open\" with that item\x27s path\n3. If you see a folder that might contain what the user wants, choose \"explore\" with that folder\x27s path\n4. Match keywords from the user\x27s query to folder/file names\n5. Look for folders containing the main keywords from the query\n6. Be flexible with spelling mistakes and variations\n7. USE ONLY PATHS FROM THE LISTING ABOVE - copy the path exactly as shown after \"->\"\n8. IMPORTANT: If the current folder has matching items, prefer opening the current folder over exploring subfolders\n9. Only choose \"not_found\" if you\x27re absolutely certain nothing matches\n10. You can pick synomous folders names that contain the query keywords"

/-- `_is_partition_request`: direct drive-open query shapes, or a query
of at most three characters starting with a known partition letter. -/
def isPartitionRequest (partitions : List String) (query : String) : Option String :=
  let ql := pyStrip (pyLower query)
  partitions.findSome? (fun partition =>
    match partition.data with
    | ch :: _ =>
      let l := String.mk [ch.toLower]
      if [("open " ++ l), ("open " ++ l ++ ":"), (l ++ ":"), (l ++ " drive"),
          ("open " ++ l ++ " drive"), (l ++ ":\\")].contains ql then some partition
      else if startsWithS ql l && ql.data.length ≤ 3 then some partition
      else none
    | [] => none)

/-- The synonym table shared by `_explore_partition` and the deep
`not_found` fallback. -/
def synonymsMap : List (String × List String) :=
  [("cv", ["resume", "resumes", "curriculum", "vitae"]),
   ("resume", ["cv", "curriculum", "vitae"]),
   ("certificate", ["cert", "certs", "certificates"]),
   ("cert", ["certificate", "certificates", "certs"]),
   ("document", ["doc", "docs", "documents"]),
   ("photo", ["picture", "pictures", "image", "images"]),
   ("movie", ["film", "films", "video", "videos"]),
   ("music", ["song", "songs", "audio", "tracks"])]

def weakWords : List String :=
  ["the", "my", "open", "find", "launch", "games", "game", "app", "application",
   "program", "software", "folder", "folders"]

/-- `user_wants_setup`: the raw query contains a setup keyword. -/
def userWantsSetupOf (q : String) : Bool :=
  setupKeywords.any (fun kw => pySub kw (pyLower q))

/-- A path whose lower-cased text contains a setup keyword. -/
def isSetupPathB (p : String) : Bool :=
  setupKeywords.any (fun kw => pySub kw (pyLower p))

/-- The partition-level smart check of `_explore_partition`
(lines 230–264): with at least two matching items, either a single
matching folder wins immediately, matching folders defer to the oracle,
only-executable matches defer to the oracle, and otherwise the partition
itself is returned. `none` means fall through to the scoring stage.
Note the source compares the *upper-case* drive prefix against the
lower-cased query, so that disjunct never fires for upper-case
partitions. -/
def exploreQuick (listing : Listing) (q partition : String) : Option String :=
  let ql := pyLower q
  let qWords := extractKeywords q
  let vars := dedupFirst qWords
  let mExecs := listing.executables.filter (fun e => vars.any (fun w => pySub w (pyLower e.name)))
  let mFolders := listing.folders.filter (fun f => vars.any (fun w => pySub w (pyLower f.name)))
  if 2 ≤ mExecs.length + mFolders.length then
    let uwp := (["drive", "partition", "disk", "volume"].any (fun kw => pySub kw ql)) ||
      (match partition.data with
       | ch :: _ => pySub (String.mk [ch, ':']) ql
       | [] => false)
    if !mFolders.isEmpty && !uwp then
      (match mFolders with
       | [f] => some f.path
       | _ => none)
    else if mFolders.isEmpty && !mExecs.isEmpty && !uwp then none
    else some partition
  else none

/-- One scored folder of the `_explore_partition` scoring stage. -/
structure SFolder where
  score : Nat
  imp : Nat
  exact : Bool
  simple : Bool
  folder : Item

/-- Sort key `(exact, score, important, simple)` descending. -/
def sfGt (a b : SFolder) : Bool :=
  let ka := (a.exact.toNat, a.score, a.imp, a.simple.toNat)
  let kb := (b.exact.toNat, b.score, b.imp, b.simple.toNat)
  ka.1 > kb.1 || (ka.1 == kb.1 && (ka.2.1 > kb.2.1 || (ka.2.1 == kb.2.1 &&
    (ka.2.2.1 > kb.2.2.1 || (ka.2.2.1 == kb.2.2.1 && ka.2.2.2 > kb.2.2.2)))))

/-- The folder-scoring stage of `_explore_partition` (lines 266–351):
weighted keyword/synonym hits, the exact-phrase bonus, the exact-synonym
bonus, the simplicity bonus, then the quick-match acceptance test. -/
def exploreScore (folders : List Item) (qWords : List String) : Option String :=
  let importantWords := qWords.filter (fun w => !weakWords.contains w && 2 < w.data.length)
  let expanded := dedupFirst (importantWords ++ importantWords.flatMap (fun w =>
    ((synonymsMap.find? (fun e => e.1 == pyLower w)).map (·.2)).getD []))
  let queryPhrase := pyLower (joinSep " " importantWords)
  let scored := folders.filterMap (fun folder =>
    let n := pyLower folder.name
    let importantMatches := importantWords.countP (fun w => pySub w n)
    let synonymMatches := (expanded.filter (fun w => pySub w n && !importantWords.contains w)).length
    let weakMatches := qWords.countP (fun w => pySub w n && weakWords.contains w)
    let score0 := importantMatches * 3 + synonymMatches * 2 + weakMatches
    let e1s1 : Bool × Nat :=
      if !queryPhrase.isEmpty && pySub queryPhrase n then
        if n == queryPhrase || startsWithS n queryPhrase || endsWithS n queryPhrase then
          (true, score0 + 10)
        else (false, score0)
      else (false, score0)
    let e2s2 : Bool × Nat := expanded.foldl (fun (acc : Bool × Nat) w =>
      if pySub w n then
        if !importantWords.contains w then
          let s1 := acc.2 + 5
          if (pySplitWs n).contains w ||
              ((pySplitOn '-' n ++ pySplitOn '_' n).any (fun part => part == w)) then
            (true, s1 + 5)
          else (acc.1, s1)
        else acc
      else acc) e1s1
    let isSimple := (pySplitWs n).length ≤ importantWords.length + 1
    let score3 := if isSimple && 0 < importantMatches then e2s2.2 + 5 else e2s2.2
    if 0 < score3 then
      some { score := score3, imp := importantMatches, exact := e2s2.1,
             simple := isSimple, folder := folder }
    else none)
  match sortDescBy sfGt scored with
  | [] => none
  | best :: restSorted =>
    if 0 < best.imp &&
        (best.exact || 3 ≤ best.score || restSorted.isEmpty ||
          (!restSorted.isEmpty &&
            (match restSorted with
             | second :: _ => second.score * 2 < best.score
             | [] => false))) then
      some best.folder.path
    else none

/-- The post-oracle decision handling of `_explore_partition`
(lines 387–445): open-the-partition comparison, then the
explore / open / not_found chain (failed existence checks fall through),
then the raw drive-path fallback over the response text (note: two
separate patterns, backslash then forward slash, results concatenated,
and this fallback converts slashes but never falls back to a parent). -/
def exploreDecide (fs : FileSys) (partition respText : String) : Option String :=
  let d := parseModelResponse fs respText
  let action := objGetStr d "action"
  let popt := objGetStr d "path"
  let openPartition :=
    action == some "open" && optTruthy popt &&
      (match popt with
       | some p => normLower partition == normLower p
       | none => false)
  if openPartition then some partition
  else
    let chain : Option (Option String) :=
      if action == some "explore" then
        match popt with
        | some p =>
          if !p.isEmpty then
            let p2 := pyReplace "\\\\" "\\" (pyReplace "/" "\\" p)
            if fsExists fs p2 then some (some p2) else none
          else none
        | none => none
      else if action == some "open" then
        match popt with
        | some p =>
          if !p.isEmpty then
            let p2 := pyReplace "\\\\" "\\" (pyReplace "/" "\\" p)
            if fsExists fs p2 then some (some p2) else none
          else none
        | none => none
      else if action == some "not_found" then some none
      else none
    match chain with
    | some r => r
    | none =>
      let allPaths := findAllDrive (fun c => c == '\\') respText.data.length respText.data ++
        findAllDrive (fun c => c == '/') respText.data.length respText.data
      (orderByLenDesc allPaths).findSome? (fun p0 =>
        let p := pyReplace "/" "\\" (pyRstripSet ['.', ',', ';', ':', ')'] (pyStrip p0))
        if 3 < p.data.length && fsExists fs p then some p else none)

/-- `_explore_partition` (lines 214–445): list the partition root, run
the partition-level smart check and the folder-scoring quick match, and
otherwise consult the oracle and apply its decision. -/
def explorePartition (fs : FileSys) (oracle : String → Option String) (ctx : AgentCtx)
    (partition q : String) : M (Option String) :=
  M.bind (listItemsM fs ctx.now partition none true) (fun ld =>
    match ld with
    | .error _ => M.pure none
    | .ok listing =>
      match exploreQuick listing q partition with
      | some r => M.pure (some r)
      | none =>
        match exploreScore listing.folders (extractKeywords q) with
        | some r => M.pure (some r)
        | none =>
          M.bind (askOracle oracle
              (explorePrompt ctx q partition (formatFolderListing (.ok listing)))) (fun resp =>
            match resp with
            | none => M.pure none
            | some rt =>
              if rt.isEmpty then M.pure none
              else M.pure (exploreDecide fs partition rt)))

/-! ### `_navigate_to_target` (lines 447–1015) -/

def commonProgTermsNav : List String := ["prog", "program", "app", "application", "bin", "exe"]

def commonProgTermsNF : List String := ["prog", "program", "app", "application", "bin"]

/-- The `query_variations` set of the main body (lines 497–503): the
keyword set, plus the program terms when the query mentions
program/app/application/software. -/
def navVariations (q : String) : List String :=
  let base := dedupFirst (extractKeywords q)
  if ["program", "app", "application", "software"].any (fun w => pySub w (pyLower q)) then
    unionFirst base commonProgTermsNav
  else base

/-- The pre-oracle quick checks of the body (lines 488–571): direct
main-executable matches, setup-file matches when requested, folder
variation matches (deep levels or program-named folders), the
two-matching-items parent short-circuit, and the strong-executable
parent short-circuit. `none` falls through to the oracle. -/
def navQuickChecks (listing : Listing) (q start : String) (depth : Nat) : Option String :=
  let ql := pyLower q
  let qWords := extractKeywords q
  let uws := userWantsSetupOf q
  let vars := navVariations q
  let mainExecs := listing.executables.filter
    (fun e => !(setupKeywords.any (fun kw => pySub kw (pyLower e.name))))
  let setupFiles := listing.executables.filter
    (fun e => setupKeywords.any (fun kw => pySub kw (pyLower e.name)))
  match mainExecs.findSome? (fun e =>
      let n := pyLower e.name
      if (!vars.isEmpty && vars.any (fun w => pySub w n)) || pySub ql n || pySub n ql then
        some e.path
      else none) with
  | some p => some p
  | none =>
    match (if uws then
        setupFiles.findSome? (fun e =>
          if !vars.isEmpty && vars.any (fun w => pySub w (pyLower e.name)) then some e.path
          else none)
      else none) with
    | some p => some p
    | none =>
      match listing.folders.findSome? (fun f =>
          let n := pyLower f.name
          if (!vars.isEmpty && vars.any (fun w => pySub w n)) &&
              (0 < depth || commonProgTermsNav.any (fun t => pySub t n)) then
            some f.path
          else none) with
      | some p => some p
      | none =>
        let mExecs := mainExecs.filter (fun e => vars.any (fun w => pySub w (pyLower e.name)))
        let mFolders := listing.folders.filter (fun f => vars.any (fun w => pySub w (pyLower f.name)))
        if 2 ≤ mExecs.length + mFolders.length then some start
        else if 1 ≤ mExecs.length &&
            mExecs.any (fun e =>
              (qWords.filter (fun w => 3 < w.data.length)).all (fun w => pySub w (pyLower e.name))) then
          some start
        else none

/-- What the oracle decision tells the body to do next
(lines 606–679 except the `not_found` / fallback bodies). -/
inductive NavAct where
  | ret (r : Option String)
  | recurse (p : String)
  | setupExplore (p : String)
  | notFound
  | fallbackParse

/-- Applying the parsed decision (lines 611–679): opening the current
folder; `open` with the setup-file detour into the parent directory and
the parent fallback for missing paths; `explore` with the setup-folder
re-listing detour; `not_found`; anything else goes to the raw fallback. -/
def decisionDispatch (fs : FileSys) (uws : Bool) (start : String) (d : JObj) : NavAct :=
  let action := objGetStr d "action"
  let popt := objGetStr d "path"
  let openCurrent :=
    action == some "open" && optTruthy popt &&
      (match popt with
       | some p => normLower start == normLower p
       | none => false)
  if openCurrent then .ret (some start)
  else if action == some "open" then
    match popt with
    | some p =>
      if !p.isEmpty && fsExists fs p then
        if isSetupPathB p && !uws then
          let parentDir := if fsIsFile fs p then dirName p else p
          if fsIsDir fs parentDir then .recurse parentDir else .ret none
        else .ret (some p)
      else if !p.isEmpty then
        let parent := dirName p
        if fsExists fs parent then .ret (some parent) else .ret none
      else .ret none
    | none => .ret none
  else if action == some "explore" then
    match popt with
    | some p =>
      if !p.isEmpty && fsExists fs p then
        if isSetupPathB p && !uws then .setupExplore p else .recurse p
      else .ret none
    | none => .ret none
  else if action == some "not_found" then .notFound
  else .fallbackParse

/-- Keyword set expanded through the synonym table (the deep `not_found`
fallback, lines 779–783; no length filter applies to the lookup). -/
def expandKeywords (qk : List String) : List String :=
  dedupFirst (qk ++ qk.flatMap (fun k =>
    (((synonymsMap.find? (fun e => e.1 == pyLower k)).map (·.2)).getD [])))

/-- The matching-files early exit at the top of the `not_found` branch
(lines 710–720): at least two other-files whose names contain a query
keyword longer than two characters. -/
def nfMatchingFilesCheck (q : String) (otherFiles : List Item) : Bool :=
  let qw2 := (extractKeywords q).filter (fun w => 2 < w.data.length)
  2 ≤ (otherFiles.filter (fun f => qw2.any (fun w => pySub w (pyLower f.name)))).length

/-- The direct-listing recovery inside `not_found` (lines 729–829): a raw
`os.listdir` pass rebuilds folder/other-file lists (paths are the plain
`os.path.join` results here, deliberately not normalized as in the
scanner), then the folder-name/synonym analysis may open the current
directory immediately (`Sum.inl`); otherwise the rebuilt lists flow on. -/
def nfDirectPure (fs : FileSys) (start q : String) (items : List String) :
    Sum String (List Item × List Item) :=
  let step := fun (acc : List Item × List Item) (item : String) =>
    if startsWithS item "." then acc
    else
      let itemPath := pathJoin start item
      if fsIsDir fs itemPath then (acc.1 ++ [⟨item, itemPath⟩], acc.2)
      else if fsIsFile fs itemPath then
        let ext := pyLower (splitExt item).2
        if otherFileExts.contains ext || executableExts.contains ext then
          (acc.1, acc.2 ++ [⟨item, itemPath⟩])
        else acc
      else acc
  let (newFolders, newOther) := items.foldl step ([], [])
  let foundItems := !newFolders.isEmpty || !newOther.isEmpty
  if foundItems && !newOther.isEmpty then
    let folderNameL := pyLower (baseName start)
    let ql := pyLower q
    let expanded := expandKeywords (extractKeywords q)
    let folderMatches := expanded.any (fun kw =>
      2 < kw.data.length &&
        (pySub (pyLower kw) folderNameL || pySub folderNameL (pyLower kw) ||
          (pySplitWs (pyLower kw)).any (fun part => 2 < part.data.length && pySub part folderNameL)))
    let queryMentions := (pySplitWs folderNameL).any (fun part =>
      2 < part.data.length &&
        (pySub part ql ||
          expanded.any (fun kw =>
            2 < kw.data.length && (pySub part (pyLower kw) || pySub (pyLower kw) part))))
    if (folderMatches || queryMentions) && 1 ≤ newOther.length then .inl start
    else if 2 ≤ newOther.length then
      let folderShort := pyReplace "-" "" (pyReplace "_" "" (pyReplace " " "" folderNameL))
      let queryShort := pyReplace "-" "" (pyReplace "_" "" (pyReplace " " "" ql))
      if (pySplitWs folderShort).any (fun part => 3 < part.data.length && pySub part queryShort) ||
          (pySplitWs folderNameL).length ≤ 2 then .inl start
      else .inr (newFolders, newOther)
    else .inr (newFolders, newOther)
  else .inr (newFolders, newOther)

/-- What the remainder of the `not_found` branch decides
(lines 833–967). -/
inductive NFAction where
  | ret (r : Option String)
  | recurBest (bm : String)
  | tryFolders (prog : List Item) (others : List Item) (fb : Option String)
  | giveUp

/-- The pure remainder of the `not_found` branch (lines 833–967):
other-file/folder-name matches open the current directory; lenient
main-executable and (if wanted or nothing else) setup-file matches;
the best-folder scoring (with the setup penalty) selecting a folder to
recurse into; the last-resort setup file; and for deep levels inside a
query-matching parent, the program-folders-then-rest recursion loops
with their first-entry fallback. -/
def nfMain (q start : String) (depth : Nat) (executables folders other : List Item) : NFAction :=
  let qWords := extractKeywords q
  let uws := userWantsSetupOf q
  let vars := unionFirst (dedupFirst qWords) commonProgTermsNF
  let mainExecs := executables.filter
    (fun e => !(setupKeywords.any (fun kw => pySub kw (pyLower e.name))))
  let setupFiles := executables.filter
    (fun e => setupKeywords.any (fun kw => pySub kw (pyLower e.name)))
  let folderNameL := pyLower (baseName start)
  let qw2 := qWords.filter (fun w => 2 < w.data.length)
  let matchingOther := other.filter (fun f => qw2.any (fun w => pySub w (pyLower f.name)))
  if !other.isEmpty && 2 ≤ matchingOther.length then .ret (some start)
  else if !other.isEmpty && 1 ≤ matchingOther.length &&
      qw2.any (fun w => pySub w folderNameL) then .ret (some start)
  else if !other.isEmpty && qw2.any (fun w => pySub w folderNameL) && 1 ≤ other.length then
    .ret (some start)
  else
    match mainExecs.findSome? (fun e =>
        let n := pyLower e.name
        if (!vars.isEmpty && vars.any (fun w => pySub w n)) ||
            (qWords.filter (fun w => 3 < w.data.length)).any (fun w => pySub w n) then
          some e.path
        else none) with
    | some p => .ret (some p)
    | none =>
      match (if uws || mainExecs.length == 0 then
          setupFiles.findSome? (fun e =>
            if !vars.isEmpty && vars.any (fun w => pySub w (pyLower e.name)) then some e.path
            else none)
        else none) with
      | some p => .ret (some p)
      | none =>
        let best := folders.foldl (fun (acc : Option String × Int) folder =>
          let n := pyLower folder.name
          let isSetupF := setupKeywords.any (fun kw => pySub kw n)
          if isSetupF && !uws then acc
          else
            let s0 : Int := (vars.countP (fun w => pySub w n) : Nat) * 2 +
              ((qWords.countP (fun w => pySub w n) : Nat) : Int) * 3
            let s1 := if commonProgTermsNF.any (fun t => pySub t n) then s0 + 5 else s0
            let s2 := if 0 < depth && qWords.any (fun w => pySub w folderNameL) then s1 + 3 else s1
            let s3 := if isSetupF then s2 - 1 else s2
            if acc.2 < s3 then (some folder.path, s3) else acc) (none, 0)
        if optTruthy best.1 && 0 < best.2 then .recurBest (best.1.getD "")
        else if !uws && 0 < setupFiles.length && mainExecs.length == 0 then
          match setupFiles with
          | sf :: _ => .ret (some sf.path)
          | [] => .giveUp
        else if 0 < depth && qWords.any (fun w => pySub w folderNameL) then
          let nonSetup := folders.filter
            (fun f => !(setupKeywords.any (fun kw => pySub kw (pyLower f.name))))
          let progF := nonSetup.filter
            (fun f => commonProgTermsNF.any (fun t => pySub t (pyLower f.name)))
          let rest := nonSetup.filter (fun f => !progF.contains f)
          let fb : Option String :=
            match progF with
            | pf :: _ => some pf.path
            | [] =>
              match nonSetup with
              | nf :: _ => some nf.path
              | [] => none
          .tryFolders progF rest fb
        else .giveUp

/-- The recursion loops of the `not_found` branch: try each folder; a
truthy result returns immediately. -/
def tryEachM (g : Item → M (Option String)) : List Item → M (Option String)
  | [] => M.pure none
  | f :: rest => M.bind (g f) (fun r => if optTruthy r then M.pure r else tryEachM g rest)

/-- The `not_found` branch assembled (lines 681–967). -/
def notFoundM (recur : String → M (Option String)) (fs : FileSys) (q start : String)
    (depth : Nat) (listing : Listing) : M (Option String) :=
  if nfMatchingFilesCheck q listing.otherFiles then M.pure (some start)
  else
    M.bind
      (if listing.folders.isEmpty && listing.executables.isEmpty && listing.otherFiles.isEmpty then
        match fsListdir fs start with
        | none => M.pure (Sum.inr (listing.folders, listing.otherFiles))
        | some items => M.bind (emitM (.scan start)) (fun _ => M.pure (nfDirectPure fs start q items))
      else M.pure (Sum.inr (listing.folders, listing.otherFiles)))
      (fun dres =>
        match dres with
        | .inl r => M.pure (some r)
        | .inr lists =>
          match nfMain q start depth listing.executables lists.1 lists.2 with
          | .ret r => M.pure r
          | .recurBest bm =>
            M.bind (recur bm) (fun r => if optTruthy r then M.pure r else M.pure (some bm))
          | .tryFolders prog rest fb =>
            M.bind (tryEachM (fun f => recur f.path) prog) (fun r1 =>
              if optTruthy r1 then M.pure r1
              else
                M.bind (tryEachM (fun f => recur f.path) rest) (fun r2 =>
                  if optTruthy r2 then M.pure r2 else M.pure fb))
          | .giveUp => M.pure none)

/-- The final `else` fallback of the body (lines 969–1015): drive-path
tokens from the raw response (combined separator class, no slash
conversion), longest first, accepting an existing path or parent; then
a lenient folder scoring over the original listing. -/
def navElseFallback (fs : FileSys) (q respText : String) (listing : Listing) : Option String :=
  let ms := findAllDrive isSepC respText.data.length respText.data
  match (orderByLenDesc ms).findSome? (fun p0 =>
      let pm := pyRstripSet ['.', ',', ';', ':', ')'] (pyStrip p0)
      if 3 < pm.data.length && fsExists fs pm then some pm
      else if 3 < pm.data.length then
        let parent := dirName pm
        if fsExists fs parent && 3 < parent.data.length then some parent else none
      else none) with
  | some p => some p
  | none =>
    let ql := pyLower q
    let qWords := extractKeywords q
    let vars := if ["program", "app", "application", "software"].any (fun w => pySub w ql) then
        unionFirst (dedupFirst qWords) commonProgTermsNF
      else dedupFirst qWords
    let best := listing.folders.foldl (fun (acc : Option String × Nat) folder =>
        let n := pyLower folder.name
        let s0 := vars.countP (fun w => pySub w n)
        let s1 := if commonProgTermsNF.any (fun t => pySub t n) then s0 + 2 else s0
        if acc.2 < s1 then (some folder.path, s1) else acc) (none, 0)
    if optTruthy best.1 && 0 < best.2 then best.1 else none

/-- The body of `_navigate_to_target` after its guards (lines 465–1015):
list the directory (empty listings probe a direct `os.listdir`), run the
quick checks, otherwise consult the oracle and apply its decision;
`recur` is the recursive call at `depth + 1` sharing the visited set. -/
def navBody (fs : FileSys) (oracle : String → Option String) (ctx : AgentCtx)
    (recur : String → M (Option String)) (q start : String) (depth : Nat) :
    M (Option String) :=
  M.bind (listItemsM fs ctx.now start none true) (fun ld =>
    match ld with
    | .error _ => M.pure none
    | .ok listing =>
      M.bind
        (if listing.folders.isEmpty && listing.executables.isEmpty then
          match fsListdir fs start with
          | some _ => emitM (.scan start)
          | none => M.pure ()
        else M.pure ())
        (fun _ =>
          match navQuickChecks listing q start depth with
          | some r => M.pure (some r)
          | none =>
            M.bind (askOracle oracle (navPrompt ctx q start (formatFolderListing (.ok listing))))
              (fun resp =>
                match resp with
                | none => M.pure none
                | some rt =>
                  if rt.isEmpty then M.pure none
                  else
                    match decisionDispatch fs (userWantsSetupOf q) start (parseModelResponse fs rt) with
                    | .ret r => M.pure r
                    | .recurse p => recur p
                    | .setupExplore p =>
                      M.bind (listItemsM fs ctx.now p (some 20) true) (fun fl =>
                        match fl with
                        | .ok l2 =>
                          if 0 < l2.executables.length || 0 < l2.folders.length then recur p
                          else M.pure none
                        | .error _ => recur p)
                    | .notFound => notFoundM recur fs q start depth listing
                    | .fallbackParse => M.pure (navElseFallback fs q rt listing))))

/-- `_navigate_to_target` (lines 447–1015). The recursion of the source
is bounded by the depth guard; the structural `fuel` argument (any value
exceeding `max_depth - depth`) only realizes that bound in Lean and is
provably irrelevant beyond it. Guard order is the source order: the
depth cap first, then the visited-set cycle guard, both before any I/O. -/
def navigate (fs : FileSys) (oracle : String → Option String) (ctx : AgentCtx) (q : String) :
    Nat → String → Nat → M (Option String)
  | 0, _, _ => M.pure none
  | fuel + 1, start, depth =>
    if ctx.maxDepth ≤ depth then M.pure none
    else
      M.bind (enterGuard (normLower start) depth) (fun fresh =>
        if fresh then
          navBody fs oracle ctx (fun p => navigate fs oracle ctx q fuel p (depth + 1)) q start depth
        else M.pure none)

/-! ### `find_and_open` (lines 1037–1117) -/

/-- `_open_path` composed with `open_path`: a missing path fails;
otherwise the launch is recorded and assumed to succeed (the OS
default-application call is an external collaborator). -/
def openPathM (fs : FileSys) (path : String) : M Bool :=
  if !fsExists fs path then M.pure false
  else M.bind (emitM (.openP path)) (fun _ => M.pure true)

/-- One `_navigate_to_target(next_path, query, depth=0, visited_paths=set())`
call as issued by `find_and_open`: the visited set starts empty and is
local to the call (the surrounding state keeps its own). -/
def runNavigate (fs : FileSys) (oracle : String → Option String) (ctx : AgentCtx)
    (q np : String) : M (Option String) := fun c v =>
  let r := navigate fs oracle ctx q (ctx.maxDepth + 1) np 0 c []
  ⟨r.val, r.cache, v, r.evs⟩

/-- Step 2 of `find_and_open` (lines 1067–1075): a partition named in
the query (`x:` or `x drive`) restricts the search to it. -/
def detectTargetPartition (partitions : List String) (q : String) : Option String :=
  let ql := pyLower q
  partitions.findSome? (fun partition =>
    match partition.data with
    | ch :: _ =>
      let l := String.mk [ch.toLower]
      if pySub (l ++ ":") ql || pySub (l ++ " drive") ql then some partition else none
    | [] => none)

/-- Step 3 of `find_and_open` (lines 1077–1087): the partitions to
search, deferring `C:` to the end under the skip-C policy. -/
def partitionsToSearch (partitions : List String) (target : Option String) (skipC : Bool) :
    List String :=
  match target with
  | some t => [t]
  | none =>
    if skipC then
      partitions.filter (fun p => !startsWithS p "C:") ++
        (if partitions.contains "C:\\" then ["C:\\"] else [])
    else partitions

/-- Step 4 of `find_and_open` (lines 1089–1107): per partition, explore;
a falsy candidate continues; otherwise navigate from it with a fresh
visited set; a truthy result is opened and ends the search. -/
def searchLoopM (fs : FileSys) (oracle : String → Option String) (ctx : AgentCtx)
    (q : String) : List String → M Bool
  | [] => M.pure false
  | p :: rest =>
    M.bind (explorePartition fs oracle ctx p q) (fun next =>
      if !optTruthy next then searchLoopM fs oracle ctx q rest
      else
        M.bind (runNavigate fs oracle ctx q (next.getD "")) (fun r =>
          match r with
          | some res =>
            if res.isEmpty then searchLoopM fs oracle ctx q rest else openPathM fs res
          | none => searchLoopM fs oracle ctx q rest))

/-- `find_and_open`: search divert first, then the direct partition
request, then the partition loop. -/
def findAndOpen (fs : FileSys) (oracle : String → Option String) (ctx : AgentCtx)
    (q : String) : M Bool :=
  M.bind (checkAndOpenSearch oracle q) (fun sres =>
    if sres.1 then M.pure (optTruthy sres.2)
    else
      match isPartitionRequest ctx.partitions q with
      | some p => openPathM fs p
      | none =>
        searchLoopM fs oracle ctx q
          (partitionsToSearch ctx.partitions (detectTargetPartition ctx.partitions q) ctx.skipC))

/-! ### Event projections -/

def evScans (evs : List Ev) : List String :=
  evs.filterMap (fun e => match e with | .scan p => some p | _ => none)

def evOpens (evs : List Ev) : List String :=
  evs.filterMap (fun e => match e with | .openP p => some p | _ => none)

def evOracleCount (evs : List Ev) : Nat :=
  evs.countP (fun e => match e with | .oracle => true | _ => false)

def visitsOf (evs : List Ev) : List String :=
  evs.filterMap (fun e => match e with | .visit p _ => some p | _ => none)

/-! ## Navigation invariants

`NavProp dLow maxD v v' evs` packages the per-run facts of one monadic
computation inside a `_navigate_to_target` call tree: the visited set
only grows, the directories entered past the guards are pairwise
distinct, fresh with respect to the incoming visited set and recorded in
the outgoing one, and every entry happens at a depth in `[dLow, maxD)`. -/
def NavProp (dLow maxD : Nat) (v v' : List String) (evs : List Ev) : Prop :=
  (∀ p, p ∈ v → p ∈ v') ∧
  (visitsOf evs).Nodup ∧
  (∀ p, p ∈ visitsOf evs → p ∉ v ∧ p ∈ v') ∧
  (∀ p d, Ev.visit p d ∈ evs → dLow ≤ d ∧ d < maxD)

/-- `NavProp` for every starting state. -/
def GoodN (dLow maxD : Nat) (m : M α) : Prop :=
  ∀ c v, NavProp dLow maxD v (m c v).vis (m c v).evs

theorem visitsOf_append (a b : List Ev) : visitsOf (a ++ b) = visitsOf a ++ visitsOf b := by
  simp [visitsOf]

theorem mem_visitsOf {p : String} {d : Nat} {evs : List Ev} (h : Ev.visit p d ∈ evs) :
    p ∈ visitsOf evs := by
  simp only [visitsOf, List.mem_filterMap]
  exact ⟨Ev.visit p d, h, rfl⟩

theorem navp_comp {dl maxD : Nat} {v v1 v2 : List String} {e1 e2 : List Ev}
    (h1 : NavProp dl maxD v v1 e1) (h2 : NavProp dl maxD v1 v2 e2) :
    NavProp dl maxD v v2 (e1 ++ e2) := by
  obtain ⟨m1, n1, f1, d1⟩ := h1
  obtain ⟨m2, n2, f2, d2⟩ := h2
  refine ⟨fun p hp => m2 p (m1 p hp), ?_, ?_, ?_⟩
  · rw [visitsOf_append]
    refine List.Nodup.append n1 n2 (fun p hp1 hp2 => ?_)
    exact (f2 p hp2).1 ((f1 p hp1).2)
  · intro p hp
    rw [visitsOf_append, List.mem_append] at hp
    rcases hp with hp | hp
    · exact ⟨(f1 p hp).1, m2 p (f1 p hp).2⟩
    · exact ⟨fun hv => (f2 p hp).1 (m1 p hv), (f2 p hp).2⟩
  · intro p d hp
    rw [List.mem_append] at hp
    rcases hp with hp | hp
    · exact d1 p d hp
    · exact d2 p d hp

theorem goodN_bind {dl maxD : Nat} {m : M α} {f : α → M β}
    (hm : GoodN dl maxD m) (hf : ∀ a, GoodN dl maxD (f a)) :
    GoodN dl maxD (M.bind m f) := by
  intro c v
  exact navp_comp (hm c v) (hf (m c v).val (m c v).cache (m c v).vis)

/-- Computations that never touch the visited set and record no visit
event satisfy every `NavProp`. -/
theorem goodN_inert {dl maxD : Nat} {m : M α}
    (h : ∀ c v, (m c v).vis = v ∧ visitsOf (m c v).evs = []) :
    GoodN dl maxD m := by
  intro c v
  obtain ⟨hv, he⟩ := h c v
  refine ⟨fun p hp => by rw [hv]; exact hp, by rw [he]; exact List.nodup_nil, ?_, ?_⟩
  · intro p hp
    rw [he] at hp
    exact absurd hp (List.not_mem_nil p)
  · intro p d hp
    have := mem_visitsOf hp
    rw [he] at this
    exact absurd this (List.not_mem_nil p)

theorem goodN_pure {dl maxD : Nat} {a : α} : GoodN dl maxD (M.pure a) :=
  goodN_inert (fun _ _ => ⟨rfl, rfl⟩)

theorem goodN_emit {dl maxD : Nat} {p : String} : GoodN dl maxD (emitM (.scan p)) :=
  goodN_inert (fun _ _ => ⟨rfl, rfl⟩)

theorem goodN_oracle {dl maxD : Nat} {oracle : String → Option String} {prompt : String} :
    GoodN dl maxD (askOracle oracle prompt) :=
  goodN_inert (fun _ _ => ⟨rfl, rfl⟩)

theorem goodN_listItems {dl maxD : Nat} {fs : FileSys} {now : Nat} {path : String}
    {mi : Option Nat} {uc : Bool} : GoodN dl maxD (listItemsM fs now path mi uc) := by
  apply goodN_inert
  intro c v
  refine ⟨rfl, ?_⟩
  simp only [listItemsM]
  unfold listFolderItemsC
  split
  · rfl
  · split
    · split
      · rfl
      · split <;> rfl
    · split <;> rfl

theorem goodN_enterGuard {dl maxD : Nat} {p : String} {d : Nat}
    (h1 : dl ≤ d) (h2 : d < maxD) : GoodN dl maxD (enterGuard p d) := by
  intro c v
  unfold enterGuard
  split
  · exact ⟨fun q hq => hq, by simp [visitsOf], by simp [visitsOf], by simp [visitsOf]⟩
  · rename_i hc
    have hpv : p ∉ v := by
      intro hmem
      exact hc (List.elem_iff.mpr hmem)
    refine ⟨fun q hq => List.mem_append_left _ hq, ?_, ?_, ?_⟩
    · simp [visitsOf]
    · intro q hq
      simp only [visitsOf, List.filterMap, Ev.visit] at hq
      simp only [List.mem_singleton] at hq
      subst hq
      exact ⟨hpv, List.mem_append_right _ (List.mem_singleton.mpr rfl)⟩
    · intro q dq hq
      simp only [List.mem_singleton] at hq
      cases hq
      exact ⟨h1, h2⟩

theorem goodN_weaken {dl dl2 maxD : Nat} {m : M α} (h : dl2 ≤ dl)
    (hm : GoodN dl maxD m) : GoodN dl2 maxD m := by
  intro c v
  obtain ⟨m1, n1, f1, d1⟩ := hm c v
  exact ⟨m1, n1, f1, fun p d hp => ⟨le_trans h (d1 p d hp).1, (d1 p d hp).2⟩⟩

theorem goodN_tryEachM {dl maxD : Nat} {g : Item → M (Option String)}
    (hg : ∀ f, GoodN dl maxD (g f)) :
    ∀ l : List Item, GoodN dl maxD (tryEachM g l) := by
  intro l
  induction l with
  | nil => exact goodN_pure
  | cons f rest ih =>
    exact goodN_bind (hg f) (fun r => by
      split
      · exact goodN_pure
      · exact ih)

theorem goodN_notFoundM {dl maxD : Nat} {recur : String → M (Option String)}
    {fs : FileSys} {q start : String} {depth : Nat} {listing : Listing}
    (hrec : ∀ p, GoodN dl maxD (recur p)) :
    GoodN dl maxD (notFoundM recur fs q start depth listing) := by
  unfold notFoundM
  split
  · exact goodN_pure
  · apply goodN_bind
    · split
      · split
        · exact goodN_pure
        · exact goodN_bind goodN_emit (fun _ => goodN_pure)
      · exact goodN_pure
    · intro dres
      cases dres with
      | inl r => exact goodN_pure
      | inr lists =>
        dsimp only
        cases hnf : nfMain q start depth listing.executables lists.1 lists.2 with
        | ret r => exact goodN_pure
        | recurBest bm =>
          exact goodN_bind (hrec bm) (fun r => by split <;> exact goodN_pure)
        | tryFolders prog rest fb =>
          apply goodN_bind (goodN_tryEachM (fun f => hrec f.path) prog)
          intro r1
          split
          · exact goodN_pure
          · apply goodN_bind (goodN_tryEachM (fun f => hrec f.path) rest)
            intro r2
            split <;> exact goodN_pure
        | giveUp => exact goodN_pure

theorem goodN_navBody {dl maxD : Nat} {fs : FileSys} {oracle : String → Option String}
    {ctx : AgentCtx} {recur : String → M (Option String)} {q start : String} {depth : Nat}
    (hrec : ∀ p, GoodN dl maxD (recur p)) :
    GoodN dl maxD (navBody fs oracle ctx recur q start depth) := by
  unfold navBody
  apply goodN_bind goodN_listItems
  intro ld
  cases ld with
  | error e => exact goodN_pure
  | ok listing =>
    dsimp only
    apply goodN_bind
    · split
      · split
        · exact goodN_emit
        · exact goodN_pure
      · exact goodN_pure
    · intro u
      split
      · exact goodN_pure
      · apply goodN_bind goodN_oracle
        intro resp
        cases resp with
        | none => exact goodN_pure
        | some rt =>
          dsimp only
          split
          · exact goodN_pure
          · cases hdd : decisionDispatch fs (userWantsSetupOf q) start (parseModelResponse fs rt) with
            | ret r => exact goodN_pure
            | recurse p => exact hrec p
            | setupExplore p =>
              apply goodN_bind goodN_listItems
              intro fl
              cases fl with
              | ok l2 =>
                dsimp only
                split
                · exact hrec p
                · exact goodN_pure
              | error e => exact hrec p
            | notFound => exact goodN_notFoundM hrec
            | fallbackParse => exact goodN_pure

/-- The master invariant of `_navigate_to_target`: from any state, the
visited set only grows, entered directories are pairwise distinct, fresh
and recorded, and all entries happen at depths in `[depth, max_depth)`. -/
theorem navigate_good (fs : FileSys) (oracle : String → Option String) (ctx : AgentCtx)
    (q : String) : ∀ (fuel : Nat) (start : String) (depth : Nat),
    GoodN depth ctx.maxDepth (navigate fs oracle ctx q fuel start depth) := by
  intro fuel
  induction fuel with
  | zero => intro start depth; exact goodN_pure
  | succ f ih =>
    intro start depth
    show GoodN depth ctx.maxDepth (navigate fs oracle ctx q (f + 1) start depth)
    rw [navigate]
    split
    · exact goodN_pure
    · rename_i hd
      apply goodN_bind (goodN_enterGuard (le_refl depth) (by omega))
      intro fresh
      cases fresh with
      | true =>
        exact goodN_weaken (Nat.le_succ depth)
          (goodN_navBody (fun p => ih p (depth + 1)))
      | false => exact goodN_pure

/-- Entering a directory whose normalized path is already visited
returns immediately: no result, no state change, no I/O events. -/
theorem navigate_visited_guard (fs : FileSys) (oracle : String → Option String)
    (ctx : AgentCtx) (q : String) (fuel : Nat) (start : String) (depth : Nat)
    (c : Cache) (v : List String) (h : normLower start ∈ v) :
    navigate fs oracle ctx q fuel start depth c v = ⟨none, c, v, []⟩ := by
  cases fuel with
  | zero => rfl
  | succ f =>
    rw [navigate]
    split
    · rfl
    · show (M.bind (enterGuard (normLower start) depth) _) c v = _
      have hc : v.contains (normLower start) = true := List.elem_iff.mpr h
      simp only [M.bind, enterGuard, hc, if_pos]
      rfl

/-- At or beyond the depth cap the call returns immediately: no result,
no state change, no I/O events. -/
theorem navigate_depth_guard (fs : FileSys) (oracle : String → Option String)
    (ctx : AgentCtx) (q : String) (fuel : Nat) (start : String) (depth : Nat)
    (c : Cache) (v : List String) (h : ctx.maxDepth ≤ depth) :
    navigate fs oracle ctx q fuel start depth c v = ⟨none, c, v, []⟩ := by
  cases fuel with
  | zero => rfl
  | succ f =>
    rw [navigate]
    rw [if_pos h]
    rfl

/-- The fuel argument is irrelevant beyond the depth bound: the source
recursion is genuinely bounded by `max_depth`, so the function (hence the
recursion of the source) is well defined and terminating. -/
theorem navigate_fuel_irrel (fs : FileSys) (oracle : String → Option String)
    (ctx : AgentCtx) (q : String) : ∀ (f1 f2 : Nat) (start : String) (depth : Nat),
    ctx.maxDepth - depth < f1 → ctx.maxDepth - depth < f2 →
    navigate fs oracle ctx q f1 start depth = navigate fs oracle ctx q f2 start depth := by
  intro f1
  induction f1 with
  | zero => intro f2 start depth h1 h2; omega
  | succ a ih =>
    intro f2 start depth h1 h2
    cases f2 with
    | zero => omega
    | succ b =>
      rw [navigate, navigate]
      split
      · rfl
      · rename_i hd
        have hrec : (fun p => navigate fs oracle ctx q a p (depth + 1)) =
            (fun p => navigate fs oracle ctx q b p (depth + 1)) := by
          funext p
          exact ih b p (depth + 1) (by omega) (by omega)
        rw [hrec]

/-! ## Cache lemmas -/

theorem find?_filter_ne (k : String) (l : Cache) :
    (l.filter (fun e => e.key != k)).find? (fun e => e.key == k) = none := by
  induction l with
  | nil => rfl
  | cons e t ih =>
    by_cases h : e.key = k
    · simp [List.filter, h, ih]
    · simp only [List.filter]
      have hne : (e.key != k) = true := by simp [h]
      rw [hne]
      simp only [List.find?]
      have : (e.key == k) = false := by simp [h]
      rw [this]
      exact ih

theorem find?_of_not_any (k : String) (l : Cache) (h : l.any (fun e => e.key == k) = false) :
    l.find? (fun e => e.key == k) = none := by
  rw [List.find?_eq_none]
  intro x hx
  intro hk
  have : l.any (fun e => e.key == k) = true := List.any_eq_true.mpr ⟨x, hx, hk⟩
  rw [h] at this
  exact absurd this (by simp)

/-- After a `set`, the key is present exactly once, at the
most-recent end, with the written value and timestamp. -/
theorem find?_cacheSet (c : Cache) (k : String) (val : Listing) (t : Nat) :
    (cacheSet c k val t).find? (fun e => e.key == k) = some ⟨k, val, t⟩ := by
  unfold cacheSet
  split
  · rw [List.find?_append, find?_filter_ne]
    simp [List.find?]
  · rename_i hany
    have hc : c.any (fun e => e.key == k) = false := by
      cases hca : c.any (fun e => e.key == k)
      · rfl
      · exact absurd hca hany
    have hany2 : (if cacheMaxSize ≤ c.length then c.drop 1 else c).any
        (fun e => e.key == k) = false := by
      split
      · cases hd : (c.drop 1).any (fun e => e.key == k)
        · rfl
        · obtain ⟨x, hx, hk⟩ := List.any_eq_true.mp hd
          have : c.any (fun e => e.key == k) = true :=
            List.any_eq_true.mpr ⟨x, List.mem_of_mem_drop hx, hk⟩
          rw [hc] at this
          exact absurd this (by simp)
      · exact hc
    rw [List.find?_append, find?_of_not_any k _ hany2]
    simp [List.find?]

/-- A freshly `set` entry is a fresh hit for any read within the TTL
window of the write. -/
theorem cacheGet_after_set (c : Cache) (k : String) (val : Listing) (t now : Nat)
    (h : ¬ cacheTtl < now - t) :
    (cacheGet (cacheSet c k val t) k now).1 = some val := by
  unfold cacheGet
  rw [find?_cacheSet]
  simp [h]

/-! ## Concrete inputs used by witnesses and scenario claims -/

/-- A one-folder drive for the cache claims. -/
def fsDocs : FileSys :=
  { dirs := ["d:\\"], files := [], children := [("d:\\", ["Docs"])] }

/-- What scanning `D:\` of `fsDocs` yields (the child `Docs` has no dot,
but there is no `d:\docs` directory entry, so it is classified away). -/
def docsListing : Listing :=
  { folders := [], executables := [], otherFiles := [], totalFolders := 0,
    totalExecutables := 0, path := "D:\\" }

/-! ## Claim theorems -/

/-- C9. Listing idempotence under caching: when a first
`list_folder_items` call with caching on misses the cache (and so
performs the enumeration itself) and succeeds, a second call on the same
unchanged directory within the TTL window of the first returns the equal
listing and performs no underlying file-system enumeration (no events at
all, in particular no scan): it is served from the cache keyed by the
path. -/
theorem claim_C9_cache_idempotence (fs : FileSys) (path : String) (t0 t1 : Nat)
    (m : Option Nat) (c0 : Cache) (L : Listing)
    (hmiss : (cacheGet c0 path t0).1 = none)
    (hok : (listFolderItemsC fs t0 path m true c0).res = .ok L)
    (hwin : t1 - t0 ≤ cacheTtl) :
    (listFolderItemsC fs t1 path m true (listFolderItemsC fs t0 path m true c0).cache).res =
      (listFolderItemsC fs t0 path m true c0).res ∧
    (listFolderItemsC fs t1 path m true (listFolderItemsC fs t0 path m true c0).cache).evs = [] := by
  rcases hget : cacheGet c0 path t0 with ⟨o, c2⟩
  rw [hget] at hmiss
  simp only at hmiss
  subst hmiss
  by_cases hex : fsExists fs path
  · cases hscan : scanFolder fs path (m.getD maxItemsDefault) with
    | error e =>
      exfalso
      have : (listFolderItemsC fs t0 path m true c0).res = .error e := by
        simp only [listFolderItemsC, hex, hget, hscan]
        rfl
      rw [this] at hok
      exact absurd hok (by simp)
    | ok l =>
      have h1 : listFolderItemsC fs t0 path m true c0 =
          ⟨.ok l, cacheSet c2 path l t0, [.scan path]⟩ := by
        simp only [listFolderItemsC, hex, hget, hscan]
        rfl
      have hL : l = L := by
        rw [h1] at hok
        exact Except.ok.inj hok
      subst hL
      rw [h1]
      rcases hget2 : cacheGet (cacheSet c2 path l t0) path t1 with ⟨o2, c3⟩
      have ho2 : o2 = some l := by
        have := cacheGet_after_set c2 path l t0 t1 (by omega)
        rw [hget2] at this
        exact this
      subst ho2
      constructor
      · simp only [listFolderItemsC, hex, hget2]
        rfl
      · simp only [listFolderItemsC, hex, hget2]
        rfl
  · exfalso
    have : (listFolderItemsC fs t0 path m true c0).res =
        .error ("Path does not exist: " ++ path) := by
      simp only [listFolderItemsC, hex]
      rfl
    rw [this] at hok
    exact absurd hok (by simp)

/-- C9 witness: a concrete first-miss-then-hit pair of calls. -/
theorem claim_C9_witness :
    ((cacheGet [] "D:\\" 5).1 = none ∧
      (listFolderItemsC fsDocs 5 "D:\\" none true []).res = .ok docsListing ∧
      (100 : Nat) - 5 ≤ cacheTtl) ∧
    (listFolderItemsC fsDocs 100 "D:\\" none true
        (listFolderItemsC fsDocs 5 "D:\\" none true []).cache).res =
      (listFolderItemsC fsDocs 5 "D:\\" none true []).res ∧
    (listFolderItemsC fsDocs 100 "D:\\" none true
        (listFolderItemsC fsDocs 5 "D:\\" none true []).cache).evs = [] := by
  refine ⟨⟨by decide, by decide, by decide⟩, ?_, ?_⟩
  · exact (claim_C9_cache_idempotence fsDocs "D:\\" 5 100 none [] docsListing
      (by decide) (by decide) (by decide)).1
  · exact (claim_C9_cache_idempotence fsDocs "D:\\" 5 100 none [] docsListing
      (by decide) (by decide) (by decide)).2

/-- C10. The listing cache is keyed by the path alone and consulted
before `max_items` plays any role: on a fresh (unexpired) cache hit, a
`list_folder_items` call with caching on returns the cached listing
unchanged whatever `max_items` is — two calls differing only in
`max_items` are identical in result, cache state and events, and when
the path exists the result is exactly the cached dictionary with no scan
event. -/
theorem claim_C10_cache_hit_max_items (fs : FileSys) (path : String) (t : Nat)
    (c c2 : Cache) (L : Listing) (hhit : cacheGet c path t = (some L, c2)) :
    (∀ m1 m2 : Option Nat,
      listFolderItemsC fs t path m1 true c = listFolderItemsC fs t path m2 true c) ∧
    (∀ m : Option Nat, fsExists fs path →
      listFolderItemsC fs t path m true c = ⟨.ok L, c2, []⟩) := by
  constructor
  · intro m1 m2
    by_cases hex : fsExists fs path
    · simp [listFolderItemsC, hex, hhit]
    · simp [listFolderItemsC, hex]
  · intro m hex
    simp [listFolderItemsC, hex, hhit]

/-- The cache state used by the C10 witness: `D:\` cached at time 0. -/
def docsCache : Cache := [⟨"D:\\", docsListing, 0⟩]

/-- C10 witness: a concrete fresh hit served identically for
`max_items` values 1 and 37. -/
theorem claim_C10_witness :
    (cacheGet docsCache "D:\\" 10 = (some docsListing, docsCache) ∧
      fsExists fsDocs "D:\\" = true) ∧
    listFolderItemsC fsDocs 10 "D:\\" (some 1) true docsCache =
      listFolderItemsC fsDocs 10 "D:\\" (some 37) true docsCache := by
  refine ⟨⟨by decide, by decide⟩, ?_⟩
  exact (claim_C10_cache_hit_max_items fsDocs "D:\\" 10 docsCache docsCache docsListing
    (by decide)).1 (some 1) (some 37)

/-- A drive with one application directory holding a regular executable,
a setup executable and a text file (the C3 failing input). -/
def fsApps : FileSys :=
  { dirs := ["d:\\", "d:\\apps"]
    files := ["d:\\apps\\app.exe", "d:\\apps\\setup.exe", "d:\\apps\\readme.txt"]
    children := [("d:\\", ["Apps"]), ("d:\\apps", ["app.exe", "setup.exe", "readme.txt"])] }

/-- C3. Evaluation of the scanner at the failing input: `app.exe` is a
file of `D:\Apps` with an executable-set extension and no setup keyword
in its name, and the active query `"install setup"` even contains a
setup keyword — yet the scanner returns an *empty* executables list
(and empty other-files), because the skip list contains the string `"."`
and `list_folder_items` tests skip entries as substrings, so every file
name carrying an extension is dropped before classification; dot-free
folders still get through. The claim (and spec §4.1): such an executable
is always included. -/
theorem claim_C3_dot_skip_eval :
    fsIsFile fsApps "D:\\Apps\\app.exe" = true ∧
    (pyLower (splitExt "app.exe").2) ∈ executableExts ∧
    (setupKeywords.any (fun kw => pySub kw (pyLower "app.exe"))) = false ∧
    userWantsSetupOf "install setup" = true ∧
    scanFolder fsApps "D:\\Apps" 50 =
      .ok { folders := [], executables := [], otherFiles := [], totalFolders := 0,
            totalExecutables := 0, path := "D:\\Apps" } ∧
    scanFolder fsApps "D:\\" 50 =
      .ok { folders := [⟨"Apps", "D:\\Apps"⟩], executables := [], otherFiles := [],
            totalFolders := 1, totalExecutables := 0, path := "D:\\" } ∧
    "." ∈ skipFolders := by
  refine ⟨by decide, by decide, by decide, by decide, by decide, by decide, by decide⟩

/-- C4. Evaluation of `_parse_model_response` at the failing input: the
raw oracle answer with single unescaped backslashes is repaired into
parseable JSON, but the second escape pass re-doubles the backslashes
the first pass already escaped, so the returned decision carries action
`open` with a path of *two* literal backslashes per separator — not the
single-backslash `D:\Games\Steam` the claim states. -/
theorem claim_C4_double_escape_eval :
    parseModelResponse { dirs := [], files := [], children := [] }
        "\x7b\"action\": \"open\", \"path\": \"D:\\Games\\Steam\"\x7d" =
      [("action", .s "open"), ("path", .s "D:\\\\Games\\\\Steam")] ∧
    objGetStr (parseModelResponse { dirs := [], files := [], children := [] }
        "\x7b\"action\": \"open\", \"path\": \"D:\\Games\\Steam\"\x7d") "path" ≠
      some "D:\\Games\\Steam" := by
  exact ⟨by decide, by decide⟩

/-- C5. Parser total-failure fallback: an empty oracle answer yields the
error decision, and for every answer on which every repair strategy of
the cascade fails — the direct structured parse of the fence-stripped,
separator-repaired text, the extraction pattern pairs, and the raw
drive-letter path scan — `_parse_model_response` returns a decision with
action `"error"`. (The embedding is a total function: the only exception
the Python can raise there, `json.JSONDecodeError`, is caught by the
cascade itself.) -/
theorem claim_C5_parser_error_fallback :
    (∀ fs : FileSys, parseModelResponse fs "" =
      [("action", .s "error"), ("reason", .s "Empty response")]) ∧
    (∀ (fs : FileSys) (resp : String), resp.isEmpty = false →
      jsonLoads (escapeBackslashesInPaths (stripFences resp)) = none →
      tryPatternPairs (escapeBackslashesInPaths (stripFences resp)) = none →
      rawPathScan fs (escapeBackslashesInPaths (stripFences resp)) = none →
      objGetStr (parseModelResponse fs resp) "action" = some "error") := by
  constructor
  · intro fs
    rfl
  · intro fs resp hne hjson hpat hraw
    unfold parseModelResponse
    rw [hne]
    dsimp only
    rw [hjson]
    dsimp only
    rw [hpat]
    dsimp only
    rw [hraw]
    rfl

/-- C5 witness: the answer `"hello world"` defeats every strategy and
produces the error decision. -/
theorem claim_C5_witness :
    (("hello world" : String).isEmpty = false ∧
      jsonLoads (escapeBackslashesInPaths (stripFences "hello world")) = none ∧
      tryPatternPairs (escapeBackslashesInPaths (stripFences "hello world")) = none ∧
      rawPathScan fsDocs (escapeBackslashesInPaths (stripFences "hello world")) = none) ∧
    objGetStr (parseModelResponse fsDocs "hello world") "action" = some "error" := by
  refine ⟨⟨by decide, by decide, by decide, by decide⟩, ?_⟩
  exact claim_C5_parser_error_fallback.2 fsDocs "hello world" (by decide) (by decide)
    (by decide) (by decide)

/-- C1. Cycle guard. Within one top-level resolve call of
`_navigate_to_target` (for any file system, oracle, configuration,
query, depth and starting state): (i) if the normalized current path is
already in the visited set, the call returns no result immediately, with
no directory listing, oracle call or any other I/O event and no state
change; (ii) the visited set only grows across the whole call tree;
(iii) each directory entered past the guard is recorded under its
normalized path, entered paths are pairwise distinct, fresh with respect
to the incoming visited set, and left in the final visited set — so no
directory (even one reachable as its own descendant or via an ancestor
link in the listing graph) is ever entered more than once per top-level
call. -/
theorem claim_C1_cycle_guard (fs : FileSys) (oracle : String → Option String)
    (ctx : AgentCtx) (q : String) (fuel : Nat) (start : String) (depth : Nat)
    (c : Cache) (v : List String) :
    (normLower start ∈ v →
      navigate fs oracle ctx q fuel start depth c v = ⟨none, c, v, []⟩) ∧
    (∀ p, p ∈ v → p ∈ (navigate fs oracle ctx q fuel start depth c v).vis) ∧
    (visitsOf (navigate fs oracle ctx q fuel start depth c v).evs).Nodup ∧
    (∀ p, p ∈ visitsOf (navigate fs oracle ctx q fuel start depth c v).evs →
      p ∉ v ∧ p ∈ (navigate fs oracle ctx q fuel start depth c v).vis) := by
  obtain ⟨hmono, hnodup, hfresh, _⟩ := navigate_good fs oracle ctx q fuel start depth c v
  exact ⟨fun h => navigate_visited_guard fs oracle ctx q fuel start depth c v h,
    hmono, hnodup, hfresh⟩

/-- C1 witness: with `d:\resume` already visited, entering `D:\Resume`
aborts immediately with no events, and the visited set is unchanged. -/
theorem claim_C1_witness :
    (normLower "D:\\Resume" ∈ ["d:\\resume"]) ∧
    navigate fsApps (fun _ => none) { partitions := ["D:\\"] } "cv" 5 "D:\\Resume" 0
      [] ["d:\\resume"] = ⟨none, [], ["d:\\resume"], []⟩ := by
  refine ⟨by decide, ?_⟩
  exact (claim_C1_cycle_guard fsApps (fun _ => none) { partitions := ["D:\\"] } "cv" 5
    "D:\\Resume" 0 [] ["d:\\resume"]).1 (by decide)

/-- C2. Depth bound: (i) whenever `depth ≥ max_depth` the call returns
no result immediately, with no I/O events and no state change;
(ii) every directory entry in the trace of a call started at `depth`
happens at a depth `d` with `depth ≤ d < max_depth`, so for
`max_depth = D` at most `D` nested explore steps occur on any branch;
(iii) the result is independent of the structural fuel once it exceeds
`max_depth - depth`, i.e. the recursion of the source (which always
passes `depth + 1` downwards) is genuinely bounded and terminates. -/
theorem claim_C2_depth_bound (fs : FileSys) (oracle : String → Option String)
    (ctx : AgentCtx) (q : String) (fuel : Nat) (start : String) (depth : Nat)
    (c : Cache) (v : List String) :
    (ctx.maxDepth ≤ depth →
      navigate fs oracle ctx q fuel start depth c v = ⟨none, c, v, []⟩) ∧
    (∀ p d, Ev.visit p d ∈ (navigate fs oracle ctx q fuel start depth c v).evs →
      depth ≤ d ∧ d < ctx.maxDepth) ∧
    (∀ f2 : Nat, ctx.maxDepth - depth < fuel → ctx.maxDepth - depth < f2 →
      navigate fs oracle ctx q fuel start depth = navigate fs oracle ctx q f2 start depth) := by
  obtain ⟨_, _, _, hdepth⟩ := navigate_good fs oracle ctx q fuel start depth c v
  exact ⟨fun h => navigate_depth_guard fs oracle ctx q fuel start depth c v h,
    hdepth, fun f2 h1 h2 => navigate_fuel_irrel fs oracle ctx q fuel f2 start depth h1 h2⟩

/-- C2 witness: at `depth = max_depth = 10` the call aborts immediately
with no events, and fuel 11 and 42 agree below the bound. -/
theorem claim_C2_witness :
    ((10 : Nat) ≤ 10 ∧
      navigate fsApps (fun _ => none) { partitions := ["D:\\"] } "cv" 3 "D:\\Apps" 10
        [] [] = ⟨none, [], [], []⟩) ∧
    navigate fsApps (fun _ => none) { partitions := ["D:\\"] } "cv" 11 "D:\\Apps" 0 =
      navigate fsApps (fun _ => none) { partitions := ["D:\\"] } "cv" 42 "D:\\Apps" 0 := by
  refine ⟨⟨by decide, ?_⟩, ?_⟩
  · exact (claim_C2_depth_bound fsApps (fun _ => none) { partitions := ["D:\\"] } "cv" 3
      "D:\\Apps" 10 [] []).1 (by decide)
  · exact (claim_C2_depth_bound fsApps (fun _ => none) { partitions := ["D:\\"] } "cv" 11
      "D:\\Apps" 0 [] []).2.2 42 (by decide) (by decide)

/-! ## Scenario inputs (C6, C7, C8) -/

/-- Two partitions; `D:\Google\Chrome\Application\chrome.exe` present,
nothing matching on `C:\` (the spec scenario for `"open chrome"`). -/
def fsChrome : FileSys :=
  { dirs := ["c:\\", "d:\\", "d:\\google", "d:\\google\\chrome", "d:\\google\\chrome\\application"]
    files := ["d:\\google\\chrome\\application\\chrome.exe"]
    children := [("c:\\", []), ("d:\\", ["Google"]), ("d:\\google", ["Chrome"]),
                 ("d:\\google\\chrome", ["Application"]),
                 ("d:\\google\\chrome\\application", ["chrome.exe"])] }

/-- The enumerated partitions `["C:\", "D:\"]` with the default agent
configuration (`max_depth` 10, C deferred). -/
def ctxTwoDrives : AgentCtx := { partitions := ["C:\\", "D:\\"] }

/-- A cooperative oracle for the `"open chrome"` scenario, keyed by the
(distinct) lengths of the three prompts it is shown: the search-detector
prompt gets a structured "not a search" reply; the partition prompt and
the navigation prompt get free-text replies naming a path, which the
parser recovers through its raw drive-path scan. -/
def oracleChrome : String → Option String := fun prompt =>
  if lenL prompt == 1151 then
    some "\x7b\"is_search_request\": false, \"reason\": \"local app\"\x7d"
  else if lenL prompt == 3226 then some "I choose D:\\Google"
  else if lenL prompt == 3054 then
    some "The target is D:\\Google\\Chrome\\Application\\chrome.exe"
  else none

/-- An oracle whose every call yields no result — exactly what
`generate_content` returns for the whole session once the quota is
exhausted. -/
def oracleDead : String → Option String := fun _ => none

/-- Two partitions; a folder `Resume` holding one PDF on `D:\` (the spec
scenario for the query `"cv"`). -/
def fsResume : FileSys :=
  { dirs := ["c:\\", "d:\\", "d:\\resume"]
    files := ["d:\\resume\\mycv.pdf"]
    children := [("c:\\", []), ("d:\\", ["Resume"]), ("d:\\resume", ["mycv.pdf"])] }

/-- C6. Quota handling, evaluated at the failing session: (i) a
first-attempt quota/rate-limit exception makes `generate_content` return
the `None` sentinel after exactly one attempt (no retry, no exception),
while an ordinary error is retried the full three attempts; (ii) but the
condition is *not* treated as session-permanent: with every oracle call
returning the quota sentinel, `find_and_open("open chrome")` still
issues three oracle calls (search detection, then one per partition),
scans both partitions, and simply fails — it never switches to the local
heuristic fallback (`_find_without_ai` has no caller in the program). -/
theorem claim_C6_quota_eval :
    genContentGemini (fun _ => .exn "429 Resource exhausted: check quota") true = (none, 1) ∧
    genContentGemini (fun _ => .exn "internal server error") true = (none, 3) ∧
    (findAndOpen fsChrome oracleDead ctxTwoDrives "open chrome" [] []).val = false ∧
    evOracleCount (findAndOpen fsChrome oracleDead ctxTwoDrives "open chrome" [] []).evs = 3 ∧
    evScans (findAndOpen fsChrome oracleDead ctxTwoDrives "open chrome" [] []).evs =
      ["D:\\", "C:\\"] := by
  refine ⟨by decide, by decide, by decide, by decide, by decide⟩

/-- C8 counterexample: at the spec scenario itself (query `"cv"`, a
`Resume` folder with one PDF on `D:\`, partitions enumerating `C:\`),
the resolve call does *not* return the Resume folder via synonym
expansion: it opens the `C:\` partition directly (zero oracle calls,
zero directory scans), because `_is_partition_request` classifies any
query of at most three characters starting with a known partition letter
as a drive-open request. -/
theorem claim_C8_counterexample :
    evOpens (findAndOpen fsResume oracleDead ctxTwoDrives "cv" [] []).evs ≠ ["D:\\Resume"] ∧
    evOpens (findAndOpen fsResume oracleDead ctxTwoDrives "cv" [] []).evs = ["C:\\"] ∧
    evOracleCount (findAndOpen fsResume oracleDead ctxTwoDrives "cv" [] []).evs = 0 ∧
    isPartitionRequest ctxTwoDrives.partitions "cv" = some "C:\\" := by
  refine ⟨by decide, by decide, by decide, by decide⟩

/-- C8 (amended). For the query `"cv"` with `C:\` among the enumerated
partitions, the resolve call is intercepted by the partition-request
detector (a query of at most three characters starting with the
partition letter `c`) and opens `C:\` directly — whatever the oracle
would answer: no oracle call, no directory scan and no synonym-based
resolution occur, and the `Resume` folder plays no part. -/
theorem claim_C8_partition_divert (oracle : String → Option String) :
    findAndOpen fsResume oracle ctxTwoDrives "cv" [] [] =
      ⟨true, [], [], [Ev.openP "C:\\"]⟩ := by
  rfl

/-- C7. Partition order and first-win. (i) With no partition named in
the query and the defer-C policy on, the partition list searched places
`C:\` last and contains no other `C:`-prefixed entry before it.
(ii) If the head partition resolves — its exploration yields a truthy
candidate and navigating from that candidate yields a truthy path — the
search equals the head pipeline followed by opening that path: the
remaining partitions are never touched. (iii) If the head exploration
yields no candidate, the search continues with exactly the remaining
partitions. (iv) The `"open chrome"` scenario: with
`D:\Google\Chrome\Application\chrome.exe` present and nothing matching
on `C:\`, the resolve call succeeds, opens exactly that path, and scans
only `D:\` and `D:\Google` — `C:\` (deferred by policy, enumerated
first) is never read. -/
theorem claim_C7_partition_order_first_win
    (fs : FileSys) (oracle : String → Option String) (ctx : AgentCtx) (q : String) :
    (∀ parts : List String, parts.contains "C:\\" = true →
      (partitionsToSearch parts none true).getLast? = some "C:\\" ∧
      ∀ p ∈ (partitionsToSearch parts none true).dropLast, startsWithS p "C:" = false) ∧
    (∀ (p : String) (rest : List String) (c : Cache) (v : List String),
      optTruthy (explorePartition fs oracle ctx p q c v).val = true →
      optTruthy (runNavigate fs oracle ctx q
          ((explorePartition fs oracle ctx p q c v).val.getD "")
          (explorePartition fs oracle ctx p q c v).cache
          (explorePartition fs oracle ctx p q c v).vis).val = true →
      searchLoopM fs oracle ctx q (p :: rest) c v =
        M.bind (explorePartition fs oracle ctx p q) (fun next =>
          M.bind (runNavigate fs oracle ctx q (next.getD ""))
            (fun r => openPathM fs (r.getD ""))) c v) ∧
    (∀ (p : String) (rest : List String) (c : Cache) (v : List String),
      optTruthy (explorePartition fs oracle ctx p q c v).val = false →
      searchLoopM fs oracle ctx q (p :: rest) c v =
        M.bind (explorePartition fs oracle ctx p q)
          (fun _ => searchLoopM fs oracle ctx q rest) c v) ∧
    ((findAndOpen fsChrome oracleChrome ctxTwoDrives "open chrome" [] []).val = true ∧
      evOpens (findAndOpen fsChrome oracleChrome ctxTwoDrives "open chrome" [] []).evs =
        ["D:\\Google\\Chrome\\Application\\chrome.exe"] ∧
      evScans (findAndOpen fsChrome oracleChrome ctxTwoDrives "open chrome" [] []).evs =
        ["D:\\", "D:\\Google"]) := by
  refine ⟨?_, ?_, ?_, by decide, by decide, by decide⟩
  · intro parts hmem
    have hm : "C:\\" ∈ parts := by simpa using hmem
    have hps : partitionsToSearch parts none true =
        parts.filter (fun p => !startsWithS p "C:") ++ ["C:\\"] := by
      simp [partitionsToSearch, hm]
    rw [hps]
    constructor
    · exact List.getLast?_concat _
    · rw [List.dropLast_concat]
      intro p hp
      have := List.of_mem_filter hp
      simpa using this
  · intro p rest c v h1 h2
    rcases hE : explorePartition fs oracle ctx p q c v with ⟨next, c1, v1, e1⟩
    rw [hE] at h1 h2
    simp only at h1 h2
    rcases hR : runNavigate fs oracle ctx q (next.getD "") c1 v1 with ⟨r, c2, v2, e2⟩
    rw [hR] at h2
    simp only at h2
    rcases r with _ | res
    · exact absurd h2 (by simp [optTruthy])
    · have hres : res.isEmpty = false := by
        cases hie : res.isEmpty
        · rfl
        · rw [optTruthy, hie] at h2
          exact absurd h2 (by simp)
      have hcond : (!optTruthy next) = false := by rw [h1]; rfl
      simp [searchLoopM, M.bind, hE, hcond, hR, hres]
  · intro p rest c v h1
    rcases hE : explorePartition fs oracle ctx p q c v with ⟨next, c1, v1, e1⟩
    rw [hE] at h1
    simp only at h1
    simp only [searchLoopM, M.bind, hE, h1, Bool.not_false, if_true]

/-- C7 witness: in the scenario state, the head partition `D:\` resolves
(both pipeline stages are truthy), so the loop over `["D:\", "C:\"]`
equals the `D:\` pipeline followed by the open — `C:\` is never
explored; and the deferral shape holds for the enumerated
`["C:\", "D:\"]`. -/
theorem claim_C7_witness :
    ((["C:\\", "D:\\"] : List String).contains "C:\\" = true ∧
      (partitionsToSearch ["C:\\", "D:\\"] none true).getLast? = some "C:\\") ∧
    (optTruthy (explorePartition fsChrome oracleChrome ctxTwoDrives "D:\\"
        "open chrome" [] []).val = true ∧
      searchLoopM fsChrome oracleChrome ctxTwoDrives "open chrome" ["D:\\", "C:\\"] [] [] =
        M.bind (explorePartition fsChrome oracleChrome ctxTwoDrives "D:\\" "open chrome")
          (fun next =>
            M.bind (runNavigate fsChrome oracleChrome ctxTwoDrives "open chrome" (next.getD ""))
              (fun r => openPathM fsChrome (r.getD ""))) [] []) := by
  refine ⟨⟨by decide, ?_⟩, by decide, ?_⟩
  · exact (claim_C7_partition_order_first_win fsChrome oracleChrome ctxTwoDrives
      "open chrome").1 ["C:\\", "D:\\"] (by decide) |>.1
  · exact (claim_C7_partition_order_first_win fsChrome oracleChrome ctxTwoDrives
      "open chrome").2.1 "D:\\" ["C:\\"] [] [] (by decide) (by decide)
